import Mathlib

/-!
Verification of the tracing instrumentation core of the
django-jaeger-middleware-plus repository against its specification.

The Python instrumentation adapters (src/jaegertrace/instrumentation/*.py)
are shallowly embedded as pure Lean functions.  Spans created by the
external opentracing tracer are modelled as explicit records that
accumulate tags, log events and finish calls; an adapter run returns the
outcome of the underlying call together with the list of span records it
created.  Machine time is passed in explicitly (two integer timestamps),
the behaviour of the wrapped library call is passed in as a value or
function (succeed with a result or raise an exception), and possible
failures of the external tracer (start_span or inject raising) are passed
in as explicit flags, so that each control path of the Python source has a
corresponding branch in the Lean embedding.
-/

deriving instance DecidableEq for Except

namespace Jaegertrace

/-- A Python exception, reduced to the two attributes the adapters read:
the class name (e.class.name) and the message (str(e)). -/
structure PyErr where
  kind : String
  msg : String
deriving DecidableEq, Repr

/-- Tag values attached by span.set_tag: strings, integers or booleans. -/
inductive TagValue where
  | s (v : String)
  | i (v : Int)
  | b (v : Bool)
deriving DecidableEq, Repr

/-- Modelled from the spec (section 6, carrier wire format): a span context
as serialized by the external jaeger client, four numeric fields
trace-id, span-id, parent-id and flags. -/
structure SpanCtx where
  trace_id : Nat
  span_id : Nat
  parent_id : Nat
  flags : Nat
deriving DecidableEq, Repr

/-- A span record: the observable history of one span handed out by the
external tracer.  Tags and log events accumulate in call order;
finishCount counts span.finish() invocations. -/
structure SpanRec where
  name : String
  ctx : SpanCtx
  parentCtx : Option SpanCtx
  tags : List (String × TagValue)
  logs : List (List (String × String))
  finishCount : Nat
deriving DecidableEq, Repr

/-- span.set_tag(key, value): appends to the tag history (reads see the
latest write, see SpanRec.tagVal). -/
def SpanRec.setTag (sp : SpanRec) (k : String) (v : TagValue) : SpanRec :=
  { sp with tags := sp.tags ++ [(k, v)] }

/-- span.log_kv(fields). -/
def SpanRec.logKV (sp : SpanRec) (fields : List (String × String)) : SpanRec :=
  { sp with logs := sp.logs ++ [fields] }

/-- span.finish(). -/
def SpanRec.finish (sp : SpanRec) : SpanRec :=
  { sp with finishCount := sp.finishCount + 1 }

/-- The current value of a tag key (last set_tag wins), none if never set. -/
def SpanRec.tagVal (sp : SpanRec) (k : String) : Option TagValue :=
  (sp.tags.reverse.find? (fun p => p.1 == k)).map (fun p => p.2)

/-- Modelled from the spec (section 4.3 and section 6, the external tracer
collaborator, which is not part of this repository): tracer.start_span
creates a fresh span; a child keeps its parent's trace id, a span started
with no parent roots a new trace.  fresh is the tracer's fresh-id supply. -/
def startSpan (fresh : Nat) (name : String) (parent : Option SpanCtx) : SpanRec :=
  { name := name
    ctx :=
      { trace_id := match parent with | some p => p.trace_id | none => fresh
        span_id := fresh
        parent_id := match parent with | some p => p.span_id | none => 0
        flags := 1 }
    parentCtx := parent
    tags := []
    logs := []
    finishCount := 0 }

/-- Failure behaviour of the external tracer during one adapter call:
whether tracer.start_span raises and whether tracer.inject raises.
Used to check the spec's internal-failure claims (C3). -/
structure TracerFx where
  start_span_raises : Bool := false
  inject_raises : Bool := false
deriving DecidableEq, Repr

/-- The exception surfaced when the external tracer raises. -/
def tracingErr : PyErr := { kind := "TracerError", msg := "tracer failure" }

/-! Standard opentracing tag keys used by the adapters
(opentracing.ext.tags constants). -/

def SPAN_KIND : String := "span.kind"
def SPAN_KIND_RPC_CLIENT : String := "client"
def SPAN_KIND_PRODUCER : String := "producer"
def SPAN_KIND_CONSUMER : String := "consumer"
def COMPONENT : String := "component"
def DATABASE_TYPE : String := "db.type"
def PEER_HOST_IPV4 : String := "peer.ipv4"
def PEER_PORT : String := "peer.port"
def ERROR : String := "error"
def HTTP_URL : String := "http.url"
def HTTP_METHOD : String := "http.method"
def HTTP_STATUS_CODE : String := "http.status_code"
def MESSAGE_BUS_DESTINATION : String := "message_bus.destination"

/-- The standard error log event written by the adapters on a raised
exception (database.py, redis.py, http.py, rocketmq.py). -/
def errorLog (e : PyErr) : List (String × String) :=
  [("event", "error"), ("error.kind", e.kind), ("error.object", e.msg),
   ("message", e.msg)]

/-! ## Carrier: a Python dict of string to string.

Modelled as a write log: updates append, reads see the latest write —
the observable behaviour of a Python dict through get/update. -/

abbrev Carrier : Type := List (String × String)

/-- dict.get(k): last write wins. -/
def dictGet (m : Carrier) (k : String) : Option String :=
  (m.reverse.find? (fun p => p.1 == k)).map (fun p => p.2)

/-- dict.update(other): every entry of other overrides m. -/
def dictUpdate (m other : Carrier) : Carrier :=
  List.append m other

/-- Python truthiness of a dict: non-empty. -/
def dictTruthy (m : Carrier) : Bool :=
  !(List.isEmpty m)

/-! ## Carrier codec.

Modelled from the spec: the inject/extract operations are supplied by the
external jaeger client (section 6), not by code under src/.  The spec
documents the wire format as one header holding the four span-context
fields as delimited string fields,
uber-trace-id: trace-id, span-id, parent-id, flags separated by colons. -/

/-- The header key carrying the span context. -/
def TRACE_CTX_KEY : String := "uber-trace-id"

/-- A decimal digit as a character. -/
def digitOfNat : Nat → Char
  | 0 => '0' | 1 => '1' | 2 => '2' | 3 => '3' | 4 => '4'
  | 5 => '5' | 6 => '6' | 7 => '7' | 8 => '8' | _ => '9'

/-- The numeric value of a digit character. -/
def natOfDigit (c : Char) : Nat := c.toNat - 48

/-- Decimal digits, least significant first, by fuel recursion (fuel n is
always enough since a number needs at most n digits). -/
def digitsAux : Nat → Nat → List Nat
  | 0, _ => []
  | fuel + 1, n => if n = 0 then [] else n % 10 :: digitsAux fuel (n / 10)

/-- Decimal digits of n, least significant first. -/
def decDigits (n : Nat) : List Nat := digitsAux n n

/-- A natural number as its decimal character sequence. -/
def encNat (n : Nat) : List Char := ((decDigits n).map digitOfNat).reverse

/-- Parse a decimal character sequence; none on any non-digit. -/
def decNat (l : List Char) : Option Nat :=
  if l.all Char.isDigit then
    some (Nat.ofDigits 10 ((l.map natOfDigit).reverse))
  else none

/-- The serialized form of a span context:
trace-id, span-id, parent-id and flags joined by colons. -/
def encodeCtx (ctx : SpanCtx) : List Char :=
  encNat ctx.trace_id ++ ':' ::
    (encNat ctx.span_id ++ ':' :: (encNat ctx.parent_id ++ ':' :: encNat ctx.flags))

/-- Split a character list at every colon. -/
def splitColon : List Char → List (List Char)
  | [] => [[]]
  | c :: cs =>
    match splitColon cs with
    | [] => [[]]
    | r :: rs => if c = ':' then [] :: r :: rs else (c :: r) :: rs

/-- Modelled from the spec (section 4.4): tracer.inject writes the span
context into the carrier under the trace-context header. -/
def inject (ctx : SpanCtx) (carrier : Carrier) : Carrier :=
  dictUpdate carrier [(TRACE_CTX_KEY, ⟨encodeCtx ctx⟩)]

/-- Modelled from the spec (section 4.4): tracer.extract parses the
trace-context header; an absent or malformed carrier yields none. -/
def extract (carrier : Carrier) : Option SpanCtx :=
  match dictGet carrier TRACE_CTX_KEY with
  | none => none
  | some v =>
    match splitColon v.data with
    | [a, b, c, d] =>
      match decNat a, decNat b, decNat c, decNat d with
      | some t, some s, some p, some f =>
        some { trace_id := t, span_id := s, parent_id := p, flags := f }
      | _, _, _, _ => none
    | _ => none

/-! ## The upper-casing used by the database and redis adapters
(Python str.upper()), expressed on the character list of the string. -/

/-- sql.upper() as a character list: ASCII upper-casing. -/
def upperChars (s : String) : List Char := s.data.map Char.toUpper

/-- Python substring test (pattern in text) on character lists. -/
def containsSub (pattern : List Char) : List Char → Bool
  | [] => List.isEmpty pattern
  | c :: cs => List.isPrefixOf pattern (c :: cs) || containsSub pattern cs

/-! ## Database adapter: src/jaegertrace/instrumentation/database.py -/

/-- The database component's tracing configuration.  The functions
is_component_enabled and get_tracing_config that the adapters import from
jaegertrace.conf are not under src/; modelled from the spec (section 4.2):
enabled defaults to true unless explicitly disabled, knobs carry the
defaults the call sites pass to config.get. -/
structure DbConfig where
  enabled : Bool := true
  log_sql : Bool := false
  max_query_length : Nat := 1000
  slow_query_threshold : Int := 100
deriving DecidableEq, Repr

/-- Django connection settings the cursor wrapper reads
(self.db.vendor, self.db.settings_dict).  host and port are none when the
setting is absent or Python-falsy (the source guards them with truthiness
tests). -/
structure DbSettings where
  vendor : String := "mysql"
  name : String := ""
  user : String := ""
  host : Option String := none
  port : Option String := none
deriving DecidableEq, Repr

/-- Outcome of one adapter call: the result surfaced to the caller, the
span records created during the call, and whether the underlying
(wrapped) operation actually executed. -/
structure AdapterOut (ρ : Type) where
  result : Except PyErr ρ
  spans : List SpanRec
  ran : Bool

instance {ρ : Type} [DecidableEq ρ] : DecidableEq (AdapterOut ρ) := by
  intro a b
  cases a
  cases b
  rw [AdapterOut.mk.injEq]
  infer_instance

namespace TracingCursorWrapper

/-- The hard-coded skip patterns of TracingCursorWrapper._should_trace_query. -/
def skip_patterns : List String :=
  ["SELECT 1", "SHOW TABLES", "DESCRIBE ", "information_schema", "pg_"]

/-- TracingCursorWrapper._should_trace_query (database.py lines 26-40):
trace only when the database component is enabled and no skip pattern
occurs in sql.upper(). -/
def should_trace_query (cfg : DbConfig) (sql : String) : Bool :=
  cfg.enabled &&
    !(skip_patterns.any fun p => containsSub p.data (upperChars sql))

/-- TracingCursorWrapper._create_span (database.py lines 58-91): start the
span as a child of the current span and apply the standard database tags.
The operation name is the fixed label DB_QUERY. -/
def create_span (fresh : Nat) (cfg : DbConfig) (dbs : DbSettings)
    (parent : Option SpanCtx) (sql : String) : SpanRec :=
  let sp := startSpan fresh "DB_QUERY" parent
  let sp := sp.setTag SPAN_KIND (.s SPAN_KIND_RPC_CLIENT)
  let sp := sp.setTag COMPONENT (.s "django.db")
  let sp := sp.setTag DATABASE_TYPE (.s dbs.vendor)
  let sp := sp.setTag "db.name" (.s dbs.name)
  let sp := sp.setTag "db.user" (.s dbs.user)
  let sp := match dbs.host with
    | some h => sp.setTag PEER_HOST_IPV4 (.s h)
    | none => sp
  let sp := match dbs.port with
    | some p => sp.setTag PEER_PORT (.s p)
    | none => sp
  if cfg.log_sql then sp.setTag "db.statement" (.s (sql.take cfg.max_query_length))
  else sp

/-- TracingCursorWrapper.execute (database.py lines 93-134).
underlying is the behaviour of super().execute(sql, params); t1 and t2 are
the two time.time() readings (in seconds, duration tagged in
milliseconds); rowcount is cursor.rowcount when the attribute exists.
Note the source calls _create_span before entering the try block, so a
tracer failure there (fx.start_span_raises) escapes to the caller and the
underlying call never runs. -/
def execute {ρ : Type} (fx : TracerFx) (fresh : Nat) (cfg : DbConfig)
    (dbs : DbSettings) (parent : Option SpanCtx) (sql : String)
    (underlying : Except PyErr ρ) (t1 t2 : Int) (rowcount : Option Int) :
    AdapterOut ρ :=
  if ¬ should_trace_query cfg sql then
    { result := underlying, spans := [], ran := true }
  else if fx.start_span_raises then
    { result := .error tracingErr, spans := [], ran := false }
  else
    let span := create_span fresh cfg dbs parent sql
    match underlying with
    | .ok r =>
      let duration_ms := (t2 - t1) * 1000
      let span := span.setTag "db.duration_ms" (.i duration_ms)
      let span :=
        if cfg.slow_query_threshold < duration_ms then
          (span.setTag "db.slow_query" (.b true)).logKV
            [("event", "slow_query"), ("duration_ms", toString duration_ms),
             ("threshold_ms", toString cfg.slow_query_threshold)]
        else span
      let span := match rowcount with
        | some rc => if 0 ≤ rc then span.setTag "db.rows_affected" (.i rc) else span
        | none => span
      { result := .ok r, spans := [span.finish], ran := true }
    | .error e =>
      let span := span.setTag ERROR (.b true)
      let span := span.logKV (errorLog e)
      { result := .error e, spans := [span.finish], ran := true }

end TracingCursorWrapper

/-! ## Redis adapter: src/jaegertrace/instrumentation/redis.py -/

/-- The redis component's tracing configuration (enabled modelled from the
spec as for DbConfig; knob defaults from the call sites). -/
structure RedisConfig where
  enabled : Bool := true
  ignore_commands : List String := []
  log_commands : List String := []
  max_value_length : Nat := 500
deriving DecidableEq, Repr

/-- Connection information read from self.connection.connection_kwargs. -/
structure RedisConnInfo where
  host : Option String := none
  port : Option Int := none
  db : Option Int := none
deriving DecidableEq, Repr

/-- A Redis reply as observed by the adapter: it only inspects None-ness,
list/tuple length and string size.  list carries the reply's length,
str carries its text. -/
inductive RedisVal where
  | none
  | list (len : Nat)
  | str (s : String)
  | other
deriving DecidableEq, Repr

namespace TracingRedisConnection

/-- TracingRedisConnection._should_trace_command (redis.py lines 30-45):
the component must be enabled, the command must not be in the (upper-cased)
ignore list, and if a log list is set, the command must be in it. -/
def should_trace_command (cfg : RedisConfig) (command_name : String) : Bool :=
  cfg.enabled &&
  !((cfg.ignore_commands.map upperChars).contains (upperChars command_name)) &&
  (if !(List.isEmpty cfg.log_commands) then
    (cfg.log_commands.map upperChars).contains (upperChars command_name)
  else true)

/-- The commands for which the key argument is tagged (redis.py line 77). -/
def key_commands : List String := ["GET", "SET", "DEL", "EXISTS", "HGET", "HSET"]

/-- TracingRedisConnection._create_span (redis.py lines 47-82).
rest is args[1:] (the command's arguments, as their str() values). -/
def create_span (fresh : Nat) (cfg : RedisConfig) (conn : RedisConnInfo)
    (parent : Option SpanCtx) (command_name : String) (rest : List String) :
    SpanRec :=
  let upper : String := ⟨upperChars command_name⟩
  let sp := startSpan fresh ("REDIS " ++ upper) parent
  let sp := sp.setTag SPAN_KIND (.s SPAN_KIND_RPC_CLIENT)
  let sp := sp.setTag COMPONENT (.s "redis")
  let sp := sp.setTag DATABASE_TYPE (.s "redis")
  let sp := sp.setTag "db.redis.command" (.s upper)
  let sp := match conn.host with
    | some h => sp.setTag PEER_HOST_IPV4 (.s h)
    | none => sp
  let sp := match conn.port with
    | some p => sp.setTag PEER_PORT (.i p)
    | none => sp
  let sp := match conn.db with
    | some d => sp.setTag "db.redis.database_index" (.i d)
    | none => sp
  match rest with
  | [] => sp
  | key :: _ =>
    let sp := sp.setTag "db.redis.args_count" (.i rest.length)
    if (key_commands.map upperChars).contains (upperChars command_name) then
      sp.setTag "db.redis.key" (.s (key.take cfg.max_value_length))
    else sp

/-- TracingRedisConnection.execute_command (redis.py lines 84-125).
args are the positional arguments (as their str() values; args[0] is the
command name); underlying is the behaviour of
self.connection.execute_command(args, kwargs). -/
def execute_command (fx : TracerFx) (fresh : Nat) (cfg : RedisConfig)
    (conn : RedisConnInfo) (parent : Option SpanCtx) (args : List String)
    (underlying : Except PyErr RedisVal) (t1 t2 : Int) : AdapterOut RedisVal :=
  match args with
  | [] => { result := underlying, spans := [], ran := true }
  | command_name :: rest =>
    if ¬ should_trace_command cfg command_name then
      { result := underlying, spans := [], ran := true }
    else if fx.start_span_raises then
      { result := .error tracingErr, spans := [], ran := false }
    else
      let span := create_span fresh cfg conn parent command_name rest
      match underlying with
      | .ok r =>
        let duration_ms := (t2 - t1) * 1000
        let span := span.setTag "db.redis.duration_ms" (.i duration_ms)
        let span := match r with
          | .none => span
          | .list n => span.setTag "db.redis.result_length" (.i n)
          | .str s => span.setTag "db.redis.result_size"
              (.i (s.take cfg.max_value_length).length)
          | .other => span
        { result := .ok r, spans := [span.finish], ran := true }
      | .error e =>
        let span := span.setTag ERROR (.b true)
        let span := span.logKV (errorLog e)
        { result := .error e, spans := [span.finish], ran := true }

end TracingRedisConnection

/-! ## HTTP adapter: src/jaegertrace/instrumentation/http.py -/

/-- The http_requests component configuration. -/
structure HttpConfig where
  enabled : Bool := true
  trace_headers : Bool := true
deriving DecidableEq, Repr

/-- An outgoing requests.PreparedRequest as read by the adapter, with the
urllib3 parse_url fields the span builder uses precomputed. -/
structure HttpRequest where
  method : String
  url : String
  path : Option String := none
  host : Option String := none
  port : Option Int := none
  headers : Carrier := []
  body : Option String := none
deriving DecidableEq, Repr

/-- A requests.Response as read by the adapter. -/
structure HttpResponse where
  status_code : Int
  content : String
deriving DecidableEq, Repr

/-- Python truthiness of a requests.Response (Response.bool is
Response.ok): true exactly when status_code < 400. -/
def respTruthy (r : HttpResponse) : Bool := r.status_code < 400

/-- Outcome of TracingHTTPAdapter.send: result, created spans, whether the
wrapped transport ran, and the request it was handed (headers possibly
extended by injection). -/
structure HttpSendOut where
  result : Except PyErr HttpResponse
  spans : List SpanRec
  ran : Bool
  sentRequest : Option HttpRequest
deriving DecidableEq

namespace TracingHTTPAdapter

/-- TracingHTTPAdapter._create_span (http.py lines 68-95). -/
def create_span (fresh : Nat) (parent : Option SpanCtx) (request : HttpRequest) :
    SpanRec :=
  let sp := startSpan fresh
    (request.method ++ " " ++ (request.path.getD "/")) parent
  let sp := sp.setTag SPAN_KIND (.s SPAN_KIND_RPC_CLIENT)
  let sp := sp.setTag HTTP_URL (.s request.url)
  let sp := sp.setTag HTTP_METHOD (.s request.method)
  let sp := sp.setTag COMPONENT (.s "requests")
  let sp := match request.host with
    | some h => sp.setTag PEER_HOST_IPV4 (.s h)
    | none => sp
  let sp := match request.port with
    | some p => sp.setTag PEER_PORT (.i p)
    | none => sp
  match request.body with
  | some b => sp.setTag "http.request_size" (.i b.length)
  | none => sp

/-- TracingHTTPAdapter._inject_headers (http.py lines 97-115): when header
tracing is on, inject the span context into a fresh carrier and add the
carrier entries to the request headers; a tracer.inject failure is caught
and logged, leaving the request unchanged. -/
def inject_headers (fx : TracerFx) (cfg : HttpConfig) (request : HttpRequest)
    (ctx : SpanCtx) : HttpRequest :=
  if ¬ cfg.trace_headers then request
  else if fx.inject_raises then request
  else { request with headers := dictUpdate request.headers (inject ctx []) }

/-- TracingHTTPAdapter.send (http.py lines 29-66).  underlying is the
behaviour of super().send as a function of the (possibly header-injected)
request.  As in the source, _create_span runs before the try block, so a
tracer start_span failure escapes and the request is never sent;
_inject_headers runs inside the try, and catches its own tracer
failures. -/
def send (fx : TracerFx) (fresh : Nat) (cfg : HttpConfig)
    (parent : Option SpanCtx) (request : HttpRequest)
    (underlying : HttpRequest → Except PyErr HttpResponse) (t1 t2 : Int) :
    HttpSendOut :=
  if ¬ cfg.enabled then
    { result := underlying request, spans := [], ran := true,
      sentRequest := some request }
  else if fx.start_span_raises then
    { result := .error tracingErr, spans := [], ran := false,
      sentRequest := none }
  else
    let span := create_span fresh parent request
    let request := inject_headers fx cfg request span.ctx
    match underlying request with
    | .ok response =>
      let duration := (t2 - t1) * 1000
      let span :=
        if respTruthy response then
          let span := span.setTag HTTP_STATUS_CODE (.i response.status_code)
          let span := span.setTag "http.response_size" (.i response.content.length)
          let span := span.setTag "http.duration_ms" (.i duration)
          if 400 ≤ response.status_code then span.setTag ERROR (.b true)
          else span
        else span
      { result := .ok response, spans := [span.finish], ran := true,
        sentRequest := some request }
    | .error e =>
      let span := span.setTag ERROR (.b true)
      let span := span.logKV (errorLog e)
      { result := .error e, spans := [span.finish], ran := true,
        sentRequest := some request }

end TracingHTTPAdapter

/-! ## RocketMQ adapter: src/jaegertrace/instrumentation/rocketmq.py -/

/-- The rocketmq component configuration (knob defaults from the call
sites; note _should_trace_topic reads only ignore_topics). -/
structure MqConfig where
  ignore_topics : List String := []
  trace_message_body : Bool := false
  max_message_size : Nat := 1024
deriving DecidableEq, Repr

/-- A RocketMQ message as read and written by the adapter.  mtags and keys
model msg.tags and msg.keys (none when absent or Python-falsy); properties
is none when the attribute is missing or None. -/
structure MqMsg where
  topic : String
  mtags : Option String := none
  keys : Option String := none
  body : Option String := none
  properties : Option Carrier := none
deriving DecidableEq, Repr

/-- A rocketmq SendResult as read by the adapter. -/
structure MqSendResult where
  status : Int
  msg_id : Option String := none
deriving DecidableEq, Repr

/-- The three producer send operations the adapter wraps. -/
inductive MqOperation where
  | send_sync
  | send_async
  | send_oneway
deriving DecidableEq, Repr

/-- Outcome of RocketMQInstrumentation._trace_send_message: the result
surfaced to the caller, the span records created (for send_async the span
is still unfinished on the success path — the completion callback owns
it), the message as handed to the original send (properties possibly
injected), and whether the original send ran. -/
structure MqSendOut where
  result : Except PyErr MqSendResult
  spans : List SpanRec
  sentMsg : MqMsg
  ran : Bool
deriving DecidableEq

namespace RocketMQInstrumentation

/-- RocketMQInstrumentation._should_trace_topic (rocketmq.py lines 47-52). -/
def should_trace_topic (cfg : MqConfig) (topic : String) : Bool :=
  !(cfg.ignore_topics.contains topic)

/-- The body tag block shared by the send and consume paths
(rocketmq.py lines 137-151 and 264-277): tag the body size and, when
configured and small enough, the body itself. -/
def body_tags (cfg : MqConfig) (sp : SpanRec) (body : Option String) : SpanRec :=
  match body with
  | Option.none => sp
  | some b =>
    let sp := sp.setTag "rocketmq.body_size" (.i b.length)
    if cfg.trace_message_body then
      if b.length ≤ cfg.max_message_size then
        sp.setTag "rocketmq.body" (.s (b.take cfg.max_message_size))
      else sp
    else sp

/-- RocketMQInstrumentation._trace_send_message (rocketmq.py lines
106-212).  underlying is original_method(producer, msg) as a function of
the message it is handed.  A tracer.inject failure is caught, leaving the
message properties unchanged.  For send_sync the span is finished after
status tagging, for send_oneway after an oneway tag; for send_async the
success path leaves the span to the completion callback.  An exception
from the original send is tagged, the span finished and the exception
re-raised. -/
def trace_send_message (fx : TracerFx) (fresh : Nat) (cfg : MqConfig)
    (parent : Option SpanCtx) (msg : MqMsg) (operation : MqOperation)
    (underlying : MqMsg → Except PyErr MqSendResult)
    (t1 t2 : Int) : MqSendOut :=
  if ¬ should_trace_topic cfg msg.topic then
    { result := underlying msg, spans := [], sentMsg := msg, ran := true }
  else if fx.start_span_raises then
    { result := .error tracingErr, spans := [], sentMsg := msg, ran := false }
  else
    let span := startSpan fresh ("SEND " ++ msg.topic) parent
    let span := span.setTag SPAN_KIND (.s SPAN_KIND_PRODUCER)
    let span := span.setTag COMPONENT (.s "rocketmq")
    let span := span.setTag MESSAGE_BUS_DESTINATION (.s msg.topic)
    let span := span.setTag "rocketmq.operation"
      (.s (match operation with
        | .send_sync => "send_sync"
        | .send_async => "send_async"
        | .send_oneway => "send_oneway"))
    let span := span.setTag "rocketmq.topic" (.s msg.topic)
    let span := match msg.mtags with
      | some t => span.setTag "rocketmq.tags" (.s t)
      | Option.none => span
    let span := match msg.keys with
      | some k => span.setTag "rocketmq.keys" (.s k)
      | Option.none => span
    let span := body_tags cfg span msg.body
    let msg :=
      if fx.inject_raises then msg
      else { msg with
        properties := some (dictUpdate (msg.properties.getD []) (inject span.ctx [])) }
    match underlying msg with
    | .ok result =>
      let duration_ms := (t2 - t1) * 1000
      let span := span.setTag "rocketmq.duration_ms" (.i duration_ms)
      match operation with
      | .send_sync =>
        let span :=
          if result.status = 0 then
            let span := span.setTag "rocketmq.send_status" (.s "success")
            match result.msg_id with
            | some mid => span.setTag "rocketmq.msg_id" (.s mid)
            | Option.none => span
          else
            (span.setTag "rocketmq.send_status" (.s "failed")).setTag ERROR (.b true)
        { result := .ok result, spans := [span.finish], sentMsg := msg, ran := true }
      | .send_oneway =>
        let span := span.setTag "rocketmq.send_status" (.s "oneway")
        { result := .ok result, spans := [span.finish], sentMsg := msg, ran := true }
      | .send_async =>
        { result := .ok result, spans := [span], sentMsg := msg, ran := true }
    | .error e =>
      let span := span.setTag ERROR (.b true)
      let span := span.logKV (errorLog e)
      { result := .error e, spans := [span.finish], sentMsg := msg, ran := true }

/-- The completion callback traced_send_async installs (rocketmq.py lines
67-79): reads the span stored on the message; when the broker result
status is 0 (success!) it tags the span failed and errored — the inverted
condition the spec flags — then finishes the span; the original user
callback is invoked afterwards in every case.  Returns the updated span
and whether the user callback was invoked. -/
def traced_callback (span : Option SpanRec) (status : Int) :
    Option SpanRec × Bool :=
  match span with
  | Option.none => (Option.none, true)
  | some sp =>
    let sp :=
      if status = 0 then
        (sp.setTag "rocketmq.send_status" (.s "failed")).setTag ERROR (.b true)
      else sp
    (some sp.finish, true)

/-- Outcome of RocketMQInstrumentation._trace_consume_message: result,
created spans, and the Active-Span Context pushes and pops performed. -/
structure MqConsumeOut (ρ : Type) where
  result : Except PyErr ρ
  spans : List SpanRec
  pushes : Nat
  pops : Nat
  ran : Bool

/-- RocketMQInstrumentation._trace_consume_message (rocketmq.py lines
215-303).  The parent context is extracted from the message properties
when present (a tracer.extract failure is caught, yielding no parent);
the user callback runs with the span pushed on the Active-Span Context
(span_in_context, modelled from the spec section 4.1 as a scoped
push/pop); the span is finished on both the success and the exception
path.  extract_raises models tracer.extract raising. -/
def trace_consume_message {ρ : Type} (fresh : Nat) (cfg : MqConfig)
    (extract_raises : Bool) (msg : MqMsg) (msg_id : Option String)
    (queue_id : Option Int) (born_timestamp : Option Int)
    (underlying : Except PyErr ρ) (t1 t2 : Int) : MqConsumeOut ρ :=
  if ¬ should_trace_topic cfg msg.topic then
    { result := underlying, spans := [], pushes := 0, pops := 0, ran := true }
  else
    let parent : Option SpanCtx :=
      match msg.properties with
      | some props =>
        if dictTruthy props then
          if extract_raises then Option.none else extract props
        else Option.none
      | Option.none => Option.none
    let span := startSpan fresh ("RECEIVE " ++ msg.topic) parent
    let span := span.setTag SPAN_KIND (.s SPAN_KIND_CONSUMER)
    let span := span.setTag COMPONENT (.s "rocketmq")
    let span := span.setTag MESSAGE_BUS_DESTINATION (.s msg.topic)
    let span := span.setTag "rocketmq.topic" (.s msg.topic)
    let span := match msg_id with
      | some mid => span.setTag "rocketmq.msg_id" (.s mid)
      | Option.none => span
    let span := match msg.mtags with
      | some t => span.setTag "rocketmq.tags" (.s t)
      | Option.none => span
    let span := match msg.keys with
      | some k => span.setTag "rocketmq.keys" (.s k)
      | Option.none => span
    let span := match queue_id with
      | some q => span.setTag "rocketmq.queue_id" (.i q)
      | Option.none => span
    let span := match born_timestamp with
      | some b => span.setTag "rocketmq.born_timestamp" (.i b)
      | Option.none => span
    let span := body_tags cfg span msg.body
    match underlying with
    | .ok r =>
      let duration_ms := (t2 - t1) * 1000
      let span := span.setTag "rocketmq.processing_duration_ms" (.i duration_ms)
      let span := span.setTag "rocketmq.consume_status" (.s "success")
      { result := .ok r, spans := [span.finish], pushes := 1, pops := 1,
        ran := true }
    | .error e =>
      let span := span.setTag ERROR (.b true)
      let span := span.setTag "rocketmq.consume_status" (.s "failed")
      let span := span.logKV (errorLog e)
      { result := .error e, spans := [span.finish], pushes := 1, pops := 1,
        ran := true }

/-- The complete asynchronous send flow: _trace_send_message with
send_async followed, when the send succeeded, by the broker invoking the
completion callback with the given status.  Returns the final span
records. -/
def send_async_flow (fx : TracerFx) (fresh : Nat) (cfg : MqConfig)
    (parent : Option SpanCtx) (msg : MqMsg)
    (underlying : MqMsg → Except PyErr MqSendResult) (t1 t2 : Int)
    (status : Int) : List SpanRec :=
  let out := trace_send_message fx fresh cfg parent msg .send_async
    underlying t1 t2
  match out.result with
  | .ok _ => out.spans.map (fun sp => ((traced_callback (some sp) status).1).getD sp)
  | .error _ => out.spans

end RocketMQInstrumentation

/-! ## Celery adapter: src/jaegertrace/instrumentation/celery.py -/

/-- The celery component configuration (knob defaults from the call
sites). -/
structure CeleryConfig where
  ignore_tasks : List String := []
  trace_task_args : Bool := false
  trace_result : Bool := false
deriving DecidableEq, Repr

/-- Outcome of CeleryInstrumentation._inject_trace_context: the dispatch
result, the created publish spans, the task headers as finally passed to
apply_async, and whether the original apply_async ran. -/
structure CeleryDispatchOut (ρ : Type) where
  result : Except PyErr ρ
  spans : List SpanRec
  headers : Carrier
  ran : Bool

/-- Outcome of CeleryInstrumentation._task_prerun_handler: the span stored
on task.request (none when the task is not traced) and the number of
Active-Span Context pushes performed. -/
structure CeleryPrerunOut where
  span : Option SpanRec
  pushes : Nat
deriving DecidableEq

/-- Outcome of CeleryInstrumentation._task_postrun_handler: the stored
span after tagging and finishing, and the number of Active-Span Context
pops performed. -/
structure CeleryPostrunOut where
  span : Option SpanRec
  pops : Nat
deriving DecidableEq

namespace CeleryInstrumentation

/-- CeleryInstrumentation._should_trace_task (celery.py lines 58-63). -/
def should_trace_task (cfg : CeleryConfig) (task_name : String) : Bool :=
  !(cfg.ignore_tasks.contains task_name)

/-- CeleryInstrumentation._inject_trace_context (celery.py lines 66-106).
current is get_current_span() (the Active-Span Context top); underlying is
original_method(task, args, kwargs, options) as a function of the headers
option; task_id is options.get("task_id").  A publish span is created only
when a current span exists; without one the original dispatch runs
untraced.  A tracer.inject failure is caught, leaving the headers
unchanged; the span is finished in a finally around the original call. -/
def inject_trace_context {ρ : Type} (fx : TracerFx) (fresh : Nat)
    (cfg : CeleryConfig) (current : Option SpanCtx) (task_name : String)
    (task_id : Option String) (headers0 : Carrier)
    (underlying : Carrier → Except PyErr ρ) : CeleryDispatchOut ρ :=
  if ¬ should_trace_task cfg task_name then
    { result := underlying headers0, spans := [], headers := headers0,
      ran := true }
  else
    match current with
    | Option.none =>
      { result := underlying headers0, spans := [], headers := headers0,
        ran := true }
    | some cur =>
      if fx.start_span_raises then
        { result := .error tracingErr, spans := [], headers := headers0,
          ran := false }
      else
        let span := startSpan fresh ("PUBLISH " ++ task_name) (some cur)
        let span := span.setTag SPAN_KIND (.s SPAN_KIND_PRODUCER)
        let span := span.setTag COMPONENT (.s "celery")
        let span := span.setTag "celery.task_name" (.s task_name)
        let span := span.setTag "celery.task_id" (.s (task_id.getD ""))
        let headers :=
          if fx.inject_raises then headers0
          else dictUpdate headers0 (inject span.ctx [])
        { result := underlying headers, spans := [span.finish],
          headers := headers, ran := true }

/-- CeleryInstrumentation._task_prerun_handler (celery.py lines 109-154).
headers is getattr(task.request, headers); a parent context is extracted
only from a truthy headers dict, and a tracer.extract failure is caught,
yielding no parent.  The execution span is stored on the request and
pushed on the Active-Span Context (span_in_context, modelled from the spec
section 4.1). -/
def task_prerun_handler (fresh : Nat) (cfg : CeleryConfig)
    (extract_raises : Bool) (task_name task_id hostname : String)
    (headers : Carrier) (args_count kwargs_count : Nat) : CeleryPrerunOut :=
  if ¬ should_trace_task cfg task_name then
    { span := Option.none, pushes := 0 }
  else
    let parent : Option SpanCtx :=
      if dictTruthy headers then
        if extract_raises then Option.none else extract headers
      else Option.none
    let span := startSpan fresh ("EXECUTE " ++ task_name) parent
    let span := span.setTag SPAN_KIND (.s SPAN_KIND_CONSUMER)
    let span := span.setTag COMPONENT (.s "celery")
    let span := span.setTag "celery.task_name" (.s task_name)
    let span := span.setTag "celery.task_id" (.s task_id)
    let span := span.setTag "celery.worker" (.s hostname)
    let span :=
      if cfg.trace_task_args then
        let span :=
          if 0 < args_count then span.setTag "celery.args_count" (.i args_count)
          else span
        if 0 < kwargs_count then span.setTag "celery.kwargs_count" (.i kwargs_count)
        else span
      else span
    { span := some span, pushes := 1 }

/-- CeleryInstrumentation._task_postrun_handler (celery.py lines 156-184).
stored is the span found on task.request; when present it is tagged with
duration (when a start time was stored), the task state (SUCCESS when the
signal carries none) and optionally the result type, then finished and the
Active-Span Context popped (span_out_context) in a finally. -/
def task_postrun_handler (cfg : CeleryConfig) (stored : Option SpanRec)
    (start_time : Option Int) (now : Int) (state : Option String)
    (retval_type : Option String) : CeleryPostrunOut :=
  match stored with
  | Option.none => { span := Option.none, pops := 0 }
  | some sp =>
    let sp := match start_time with
      | some t0 => sp.setTag "celery.duration_ms" (.i ((now - t0) * 1000))
      | Option.none => sp
    let sp := sp.setTag "celery.state" (.s (state.getD "SUCCESS"))
    let sp := match retval_type with
      | some ty => if cfg.trace_result then sp.setTag "celery.result_type" (.s ty)
        else sp
      | Option.none => sp
    { span := some sp.finish, pops := 1 }

/-- One complete task execution on the worker side: the prerun signal
followed by the postrun signal on the stored span.  Returns the final
stored span together with the push and pop counts. -/
def task_flow (fresh : Nat) (cfg : CeleryConfig) (extract_raises : Bool)
    (task_name task_id hostname : String) (headers : Carrier)
    (args_count kwargs_count : Nat) (start_time : Option Int) (now : Int)
    (state : Option String) (retval_type : Option String) :
    Option SpanRec × Nat × Nat :=
  let pre := task_prerun_handler fresh cfg extract_raises task_name task_id
    hostname headers args_count kwargs_count
  let post := task_postrun_handler cfg pre.span start_time now state retval_type
  (post.span, pre.pushes, post.pops)

end CeleryInstrumentation

/-- The span shape required on an adapter call whose underlying operation
raised e: exactly one span, tagged as an error, carrying the standard
error log event, and finished exactly once. -/
def errorSpanShape (spans : List SpanRec) (e : PyErr) : Prop :=
  spans.length = 1 ∧
  ∀ sp ∈ spans, sp.tagVal ERROR = some (.b true) ∧
    errorLog e ∈ sp.logs ∧ sp.finishCount = 1

/-! ## Basic lemmas about span operations -/

@[simp] theorem SpanRec.name_setTag (sp : SpanRec) (k : String) (v : TagValue) :
    (sp.setTag k v).name = sp.name := rfl

@[simp] theorem SpanRec.ctx_setTag (sp : SpanRec) (k : String) (v : TagValue) :
    (sp.setTag k v).ctx = sp.ctx := rfl

@[simp] theorem SpanRec.parentCtx_setTag (sp : SpanRec) (k : String) (v : TagValue) :
    (sp.setTag k v).parentCtx = sp.parentCtx := rfl

@[simp] theorem SpanRec.finishCount_setTag (sp : SpanRec) (k : String) (v : TagValue) :
    (sp.setTag k v).finishCount = sp.finishCount := rfl

@[simp] theorem SpanRec.logs_setTag (sp : SpanRec) (k : String) (v : TagValue) :
    (sp.setTag k v).logs = sp.logs := rfl

@[simp] theorem SpanRec.name_logKV (sp : SpanRec) (f : List (String × String)) :
    (sp.logKV f).name = sp.name := rfl

@[simp] theorem SpanRec.ctx_logKV (sp : SpanRec) (f : List (String × String)) :
    (sp.logKV f).ctx = sp.ctx := rfl

@[simp] theorem SpanRec.parentCtx_logKV (sp : SpanRec) (f : List (String × String)) :
    (sp.logKV f).parentCtx = sp.parentCtx := rfl

@[simp] theorem SpanRec.finishCount_logKV (sp : SpanRec) (f : List (String × String)) :
    (sp.logKV f).finishCount = sp.finishCount := rfl

@[simp] theorem SpanRec.tagVal_logKV (sp : SpanRec) (f : List (String × String))
    (k : String) : (sp.logKV f).tagVal k = sp.tagVal k := rfl

@[simp] theorem SpanRec.logs_logKV (sp : SpanRec) (f : List (String × String)) :
    (sp.logKV f).logs = sp.logs ++ [f] := rfl

@[simp] theorem SpanRec.name_finish (sp : SpanRec) :
    (sp.finish).name = sp.name := rfl

@[simp] theorem SpanRec.ctx_finish (sp : SpanRec) :
    (sp.finish).ctx = sp.ctx := rfl

@[simp] theorem SpanRec.parentCtx_finish (sp : SpanRec) :
    (sp.finish).parentCtx = sp.parentCtx := rfl

@[simp] theorem SpanRec.finishCount_finish (sp : SpanRec) :
    (sp.finish).finishCount = sp.finishCount + 1 := rfl

@[simp] theorem SpanRec.tagVal_finish (sp : SpanRec) (k : String) :
    (sp.finish).tagVal k = sp.tagVal k := rfl

@[simp] theorem SpanRec.logs_finish (sp : SpanRec) :
    (sp.finish).logs = sp.logs := rfl

@[simp] theorem SpanRec.tagVal_setTag (sp : SpanRec) (k k2 : String) (v : TagValue) :
    (sp.setTag k v).tagVal k2 = if k = k2 then some v else sp.tagVal k2 := by
  by_cases h : k = k2
  · simp only [SpanRec.setTag, SpanRec.tagVal, List.reverse_append,
      List.reverse_cons, List.reverse_nil, List.nil_append, List.cons_append,
      if_pos h]
    rw [List.find?_cons_of_pos]
    · rfl
    · simp [h]
  · simp only [SpanRec.setTag, SpanRec.tagVal, List.reverse_append,
      List.reverse_cons, List.reverse_nil, List.nil_append, List.cons_append,
      if_neg h]
    rw [List.find?_cons_of_neg]
    simp [h]

@[simp] theorem SpanRec.finishCount_ite (c : Prop) [Decidable c]
    (a b : SpanRec) :
    (if c then a else b).finishCount
      = if c then a.finishCount else b.finishCount :=
  apply_ite SpanRec.finishCount c a b

@[simp] theorem startSpan_name (fresh : Nat) (n : String) (p : Option SpanCtx) :
    (startSpan fresh n p).name = n := rfl

@[simp] theorem startSpan_parentCtx (fresh : Nat) (n : String) (p : Option SpanCtx) :
    (startSpan fresh n p).parentCtx = p := rfl

@[simp] theorem startSpan_finishCount (fresh : Nat) (n : String) (p : Option SpanCtx) :
    (startSpan fresh n p).finishCount = 0 := rfl

@[simp] theorem startSpan_tagVal (fresh : Nat) (n : String) (p : Option SpanCtx)
    (k : String) : (startSpan fresh n p).tagVal k = none := rfl

@[simp] theorem startSpan_logs (fresh : Nat) (n : String) (p : Option SpanCtx) :
    (startSpan fresh n p).logs = [] := rfl

theorem startSpan_trace_id_some (fresh : Nat) (n : String) (p : SpanCtx) :
    (startSpan fresh n (some p)).ctx.trace_id = p.trace_id := rfl

/-! ## Codec lemmas: the round trip through the carrier -/

theorem natOfDigit_digitOfNat {d : Nat} (h : d < 10) :
    natOfDigit (digitOfNat d) = d := by
  interval_cases d <;> decide

theorem isDigit_digitOfNat {d : Nat} (h : d < 10) :
    (digitOfNat d).isDigit = true := by
  interval_cases d <;> decide

theorem digitOfNat_ne_colon {d : Nat} (h : d < 10) :
    digitOfNat d ≠ ':' := by
  interval_cases d <;> decide

theorem digitsAux_lt (fuel n : Nat) : ∀ d ∈ digitsAux fuel n, d < 10 := by
  induction fuel generalizing n with
  | zero => simp [digitsAux]
  | succ f ih =>
    intro d hd
    simp only [digitsAux] at hd
    by_cases h : n = 0
    · simp [h] at hd
    · rw [if_neg h] at hd
      rcases List.mem_cons.1 hd with h1 | h1
      · subst h1
        exact Nat.mod_lt _ (by norm_num)
      · exact ih _ d h1

theorem decDigits_lt (n : Nat) : ∀ d ∈ decDigits n, d < 10 :=
  digitsAux_lt n n

theorem ofDigits_digitsAux (fuel : Nat) : ∀ n : Nat, n ≤ fuel →
    Nat.ofDigits 10 (digitsAux fuel n) = n := by
  induction fuel with
  | zero =>
    intro n h
    interval_cases n
    simp [digitsAux, Nat.ofDigits]
  | succ f ih =>
    intro n h
    by_cases h0 : n = 0
    · simp [digitsAux, h0, Nat.ofDigits]
    · have hdiv : n / 10 ≤ f := by
        have h1 : n / 10 < n := Nat.div_lt_self (Nat.pos_of_ne_zero h0) (by norm_num)
        omega
      rw [digitsAux, if_neg h0, Nat.ofDigits_cons, ih _ hdiv]
      omega

theorem ofDigits_decDigits (n : Nat) : Nat.ofDigits 10 (decDigits n) = n :=
  ofDigits_digitsAux n n le_rfl

theorem encNat_no_colon (n : Nat) : ∀ c ∈ encNat n, c ≠ ':' := by
  intro c hc
  simp only [encNat, List.mem_reverse, List.mem_map] at hc
  obtain ⟨d, hd, rfl⟩ := hc
  exact digitOfNat_ne_colon (decDigits_lt n d hd)

theorem decNat_encNat (n : Nat) : decNat (encNat n) = some n := by
  have hall : (encNat n).all Char.isDigit = true := by
    simp only [encNat, List.all_eq_true, List.mem_reverse, List.mem_map]
    rintro c ⟨d, hd, rfl⟩
    exact isDigit_digitOfNat (decDigits_lt n d hd)
  simp only [decNat, hall, if_pos]
  congr 1
  simp only [encNat, List.map_reverse, List.reverse_reverse, List.map_map]
  have hmap : (decDigits n).map (natOfDigit ∘ digitOfNat) =
      (decDigits n).map id :=
    List.map_congr_left (fun d hd => natOfDigit_digitOfNat (decDigits_lt n d hd))
  rw [hmap, List.map_id]
  exact ofDigits_decDigits n

theorem splitColon_ne_nil (l : List Char) : splitColon l ≠ [] := by
  induction l with
  | nil => simp [splitColon]
  | cons c cs ih =>
    simp only [splitColon]
    match h : splitColon cs with
    | [] => exact absurd h ih
    | r :: rs =>
      by_cases hc : c = ':' <;> simp [hc]

theorem splitColon_no_colon {p : List Char} (h : ∀ c ∈ p, c ≠ ':') :
    splitColon p = [p] := by
  induction p with
  | nil => rfl
  | cons c cs ih =>
    have hc : c ≠ ':' := h c (List.mem_cons_self c cs)
    have ihr : splitColon cs = [cs] := ih (fun x hx => h x (List.mem_cons_of_mem c hx))
    simp [splitColon, ihr, hc]

theorem splitColon_append {p : List Char} (rest : List Char)
    (h : ∀ c ∈ p, c ≠ ':') :
    splitColon (p ++ ':' :: rest) = p :: splitColon rest := by
  induction p with
  | nil =>
    simp only [List.nil_append, splitColon]
    match hr : splitColon rest with
    | [] => exact absurd hr (splitColon_ne_nil rest)
    | r :: rs => simp
  | cons c cs ih =>
    have hc : c ≠ ':' := h c (List.mem_cons_self c cs)
    have ihr := ih (fun x hx => h x (List.mem_cons_of_mem c hx))
    simp only [List.cons_append, splitColon, List.append_eq]
    rw [ihr]
    simp [hc]

theorem splitColon_encodeCtx (ctx : SpanCtx) :
    splitColon (encodeCtx ctx) =
      [encNat ctx.trace_id, encNat ctx.span_id, encNat ctx.parent_id,
       encNat ctx.flags] := by
  unfold encodeCtx
  rw [splitColon_append _ (encNat_no_colon _),
    splitColon_append _ (encNat_no_colon _),
    splitColon_append _ (encNat_no_colon _),
    splitColon_no_colon (encNat_no_colon _)]

theorem dictGet_update_single (m : Carrier) (k v : String) :
    dictGet (dictUpdate m [(k, v)]) k = some v := by
  simp [dictGet, dictUpdate, List.reverse_append, List.find?]

theorem dictTruthy_inject (ctx : SpanCtx) (c : Carrier) :
    dictTruthy (inject ctx c) = true := by
  unfold dictTruthy inject dictUpdate
  rcases c with _ | x
  · rfl
  · rfl

theorem extract_inject (ctx : SpanCtx) (m : Carrier) :
    extract (inject ctx m) = some ctx := by
  unfold extract inject
  rw [dictGet_update_single]
  show (match splitColon (encodeCtx ctx) with
    | [a, b, c, d] => _
    | _ => none) = some ctx
  rw [splitColon_encodeCtx]
  simp [decNat_encNat]

/-! ## Shape lemmas for the adapters' span builders -/

theorem db_create_span_spec (fresh : Nat) (cfg : DbConfig) (dbs : DbSettings)
    (parent : Option SpanCtx) (sql : String) :
    (TracingCursorWrapper.create_span fresh cfg dbs parent sql).name = "DB_QUERY" ∧
    (TracingCursorWrapper.create_span fresh cfg dbs parent sql).parentCtx = parent ∧
    (TracingCursorWrapper.create_span fresh cfg dbs parent sql).finishCount = 0 ∧
    (TracingCursorWrapper.create_span fresh cfg dbs parent sql).tagVal COMPONENT
      = some (.s "django.db") ∧
    (TracingCursorWrapper.create_span fresh cfg dbs parent sql).tagVal ERROR
      = none ∧
    (TracingCursorWrapper.create_span fresh cfg dbs parent sql).tagVal
      "db.duration_ms" = none := by
  obtain ⟨vendor, dname, duser, host, port⟩ := dbs
  unfold TracingCursorWrapper.create_span
  cases host <;> cases port <;> by_cases h : cfg.log_sql <;>
    simp +decide [h, COMPONENT, ERROR, SPAN_KIND, DATABASE_TYPE,
      PEER_HOST_IPV4, PEER_PORT, SPAN_KIND_RPC_CLIENT]

theorem redis_create_span_start (fresh : Nat) (cfg : RedisConfig)
    (conn : RedisConnInfo) (parent : Option SpanCtx) (cmd : String)
    (rest : List String) :
    (TracingRedisConnection.create_span fresh cfg conn parent cmd rest).finishCount
      = 0 ∧
    (TracingRedisConnection.create_span fresh cfg conn parent cmd rest).parentCtx
      = parent ∧
    (TracingRedisConnection.create_span fresh cfg conn parent cmd rest).tagVal ERROR
      = none := by
  obtain ⟨host, port, db⟩ := conn
  unfold TracingRedisConnection.create_span
  cases host <;> cases port <;> cases db <;> rcases rest with _ | ⟨key, rest⟩ <;>
    split_ifs <;> simp +decide [ERROR, SPAN_KIND, COMPONENT, DATABASE_TYPE,
      PEER_HOST_IPV4, PEER_PORT]

theorem http_create_span_start (fresh : Nat) (parent : Option SpanCtx)
    (request : HttpRequest) :
    (TracingHTTPAdapter.create_span fresh parent request).finishCount = 0 ∧
    (TracingHTTPAdapter.create_span fresh parent request).parentCtx = parent ∧
    (TracingHTTPAdapter.create_span fresh parent request).tagVal ERROR = none := by
  unfold TracingHTTPAdapter.create_span
  rcases request with ⟨m, u, path, host, port, hs, body⟩
  cases host <;> cases port <;> cases body <;>
    simp +decide [ERROR, SPAN_KIND, COMPONENT, HTTP_URL, HTTP_METHOD,
      PEER_HOST_IPV4, PEER_PORT]

@[simp] theorem body_tags_finishCount (cfg : MqConfig) (sp : SpanRec)
    (body : Option String) :
    (RocketMQInstrumentation.body_tags cfg sp body).finishCount
      = sp.finishCount := by
  unfold RocketMQInstrumentation.body_tags
  rcases body with _ | b
  · rfl
  · by_cases h1 : cfg.trace_message_body <;>
      by_cases h2 : b.length ≤ cfg.max_message_size <;> simp [h1, h2]

/-! ## Claims -/

/-- C1, counterexample to the claim as stated: executing the query
"SELECT 1 FROM t" through the traced cursor with the database component
enabled, no ignore list configured and an active parent span does NOT
create a span — the query matches the hard-coded skip pattern "SELECT 1"
of _should_trace_query, so execute delegates without tracing; and even for
a query that IS traced ("SELECT 2 FROM t"), the span's component tag is
"django.db", not "database" as the claim states. -/
theorem C1_select1_counterexample :
    ((TracingCursorWrapper.execute {} 5 { enabled := true } {}
      (some ⟨9, 4, 0, 1⟩) "SELECT 1 FROM t" (Except.ok (0 : Nat)) 0 3
      none).spans = [] ∧
    ¬ ((TracingCursorWrapper.execute {} 5 { enabled := true } {}
      (some ⟨9, 4, 0, 1⟩) "SELECT 1 FROM t" (Except.ok (0 : Nat)) 0 3
      none).spans.length = 1)) ∧
    ∀ sp ∈ (TracingCursorWrapper.execute {} 5 { enabled := true } {}
      (some ⟨9, 4, 0, 1⟩) "SELECT 2 FROM t" (Except.ok (0 : Nat)) 0 3
      none).spans,
      sp.tagVal COMPONENT = some (.s "django.db") ∧
      ¬ sp.tagVal COMPONENT = some (.s "database") := by
  refine ⟨⟨by decide, by decide⟩, by decide⟩

/-- C1 (amended): for a SQL query that passes _should_trace_query (the
database component enabled and no hard-coded skip pattern occurring in the
upper-cased query — which excludes "SELECT 1 FROM t") executed through the
traced cursor with an active parent span S and a succeeding underlying
call, execute creates exactly one span, a child of S, named the fixed
query label "DB_QUERY", tagged with component="django.db" (the adapter's
component tag value, not "database"), with duration tag >= 0, no error
tag, and finish called exactly once on it. -/
theorem C1_trace_db_query (fresh : Nat) (cfg : DbConfig) (dbs : DbSettings)
    (S : SpanCtx) (sql : String) (r : Nat) (t1 t2 : Int) (rowcount : Option Int)
    (h1 : TracingCursorWrapper.should_trace_query cfg sql = true)
    (h2 : t1 ≤ t2) :
    (TracingCursorWrapper.execute {} fresh cfg dbs (some S) sql (.ok r)
      t1 t2 rowcount).result = .ok r ∧
    (TracingCursorWrapper.execute {} fresh cfg dbs (some S) sql (.ok r)
      t1 t2 rowcount).spans.length = 1 ∧
    ∀ sp ∈ (TracingCursorWrapper.execute {} fresh cfg dbs (some S) sql (.ok r)
      t1 t2 rowcount).spans,
      sp.name = "DB_QUERY" ∧ sp.parentCtx = some S ∧
      sp.tagVal COMPONENT = some (.s "django.db") ∧
      (∃ d, sp.tagVal "db.duration_ms" = some (.i d) ∧ 0 ≤ d) ∧
      sp.tagVal ERROR = none ∧ sp.finishCount = 1 := by
  obtain ⟨hname, hpar, hfin, hcomp, herr, hdur⟩ :=
    db_create_span_spec fresh cfg dbs (some S) sql
  have hd : (0 : Int) ≤ (t2 - t1) * 1000 :=
    mul_nonneg (sub_nonneg.2 h2) (by norm_num)
  unfold TracingCursorWrapper.execute
  simp only [h1, not_true, Bool.not_eq_true, if_false]
  rw [if_neg (by decide : ¬ (false = true))]
  refine ⟨rfl, rfl, ?_⟩
  intro sp hsp
  rw [List.mem_singleton] at hsp
  subst hsp
  rcases rowcount with _ | rc
  · by_cases hslow : cfg.slow_query_threshold < (t2 - t1) * 1000 <;>
      refine ⟨?_, ?_, ?_, ⟨(t2 - t1) * 1000, ?_, hd⟩, ?_, ?_⟩ <;>
      simp +decide [hslow, hname, hpar, hcomp, hdur, herr, hfin]
  · by_cases hrc : (0 : Int) ≤ rc <;>
      by_cases hslow : cfg.slow_query_threshold < (t2 - t1) * 1000 <;>
      refine ⟨?_, ?_, ?_, ⟨(t2 - t1) * 1000, ?_, hd⟩, ?_, ?_⟩ <;>
      simp +decide [hrc, hslow, hname, hpar, hcomp, hdur, herr, hfin]

/-- C1 witness: the amended statement at the concrete traced query
"SELECT 2 FROM t" with parent span context (9, 4, 0, 1) and timestamps
0 and 3. -/
theorem C1_trace_db_query_witness :
    TracingCursorWrapper.should_trace_query { enabled := true }
      "SELECT 2 FROM t" = true ∧
    ((TracingCursorWrapper.execute {} 5 { enabled := true } {}
        (some ⟨9, 4, 0, 1⟩) "SELECT 2 FROM t" (.ok (0 : Nat)) 0 3
        none).result = .ok 0 ∧
      (TracingCursorWrapper.execute {} 5 { enabled := true } {}
        (some ⟨9, 4, 0, 1⟩) "SELECT 2 FROM t" (.ok (0 : Nat)) 0 3
        none).spans.length = 1 ∧
      ∀ sp ∈ (TracingCursorWrapper.execute {} 5 { enabled := true } {}
        (some ⟨9, 4, 0, 1⟩) "SELECT 2 FROM t" (.ok (0 : Nat)) 0 3 none).spans,
        sp.name = "DB_QUERY" ∧ sp.parentCtx = some ⟨9, 4, 0, 1⟩ ∧
        sp.tagVal COMPONENT = some (.s "django.db") ∧
        (∃ d, sp.tagVal "db.duration_ms" = some (.i d) ∧ 0 ≤ d) ∧
        sp.tagVal ERROR = none ∧ sp.finishCount = 1) :=
  ⟨by decide,
    C1_trace_db_query 5 { enabled := true } {} ⟨9, 4, 0, 1⟩ "SELECT 2 FROM t"
      0 0 3 none (by decide) (by decide)⟩

/-- C2, counterexample to the claim as stated: the celery dispatch adapter
(_inject_trace_context) is a traced call whose underlying operation raises,
yet the publish span never receives an error tag — the source wraps the
original apply_async in try/finally with only span.finish, no set_tag.
The exception is re-raised and finish is called once, but the span is not
tagged as an error. -/
theorem C2_celery_publish_no_error_tag :
    (CeleryInstrumentation.inject_trace_context {} 7 {} (some ⟨9, 4, 0, 1⟩)
      "mytask" none []
      (fun _ => Except.error ⟨"ValueError", "boom"⟩ :
        Carrier → Except PyErr Nat)).result
      = Except.error ⟨"ValueError", "boom"⟩ ∧
    (CeleryInstrumentation.inject_trace_context {} 7 {} (some ⟨9, 4, 0, 1⟩)
      "mytask" none []
      (fun _ => Except.error ⟨"ValueError", "boom"⟩ :
        Carrier → Except PyErr Nat)).spans.length = 1 ∧
    ∀ sp ∈ (CeleryInstrumentation.inject_trace_context {} 7 {}
      (some ⟨9, 4, 0, 1⟩) "mytask" none []
      (fun _ => Except.error ⟨"ValueError", "boom"⟩ :
        Carrier → Except PyErr Nat)).spans,
      sp.tagVal ERROR = none ∧ sp.logs = [] ∧ sp.finishCount = 1 := by
  decide

/-- C2 (amended): for every traced call through the database, redis and
HTTP adapters whose underlying operation raises an exception, the adapter
tags the span as an error with the error kind and message, re-raises the
same exception unchanged to the caller, and still calls finish on the span
exactly once.  (The celery dispatch adapter re-raises and finishes but
does not tag the error, see the counterexample.) -/
theorem C2_error_tag_reraise_finish (e : PyErr) (f1 f2 f3 : Nat)
    (dcfg : DbConfig) (dbs : DbSettings) (p1 p2 p3 : Option SpanCtx)
    (sql : String) (t1 t2 t3 t4 t5 t6 : Int) (rowcount : Option Int)
    (rcfg : RedisConfig) (conn : RedisConnInfo) (cmd : String)
    (rest : List String) (hcfg : HttpConfig) (request : HttpRequest)
    (hdb : TracingCursorWrapper.should_trace_query dcfg sql = true)
    (hrd : TracingRedisConnection.should_trace_command rcfg cmd = true)
    (hht : hcfg.enabled = true) :
    ((TracingCursorWrapper.execute {} f1 dcfg dbs p1 sql
        (Except.error e : Except PyErr Nat) t1 t2 rowcount).result
        = .error e ∧
      errorSpanShape (TracingCursorWrapper.execute {} f1 dcfg dbs p1 sql
        (Except.error e : Except PyErr Nat) t1 t2 rowcount).spans e) ∧
    ((TracingRedisConnection.execute_command {} f2 rcfg conn p2 (cmd :: rest)
        (.error e) t3 t4).result = .error e ∧
      errorSpanShape (TracingRedisConnection.execute_command {} f2 rcfg conn
        p2 (cmd :: rest) (.error e) t3 t4).spans e) ∧
    ((TracingHTTPAdapter.send {} f3 hcfg p3 request (fun _ => .error e)
        t5 t6).result = .error e ∧
      (TracingHTTPAdapter.send {} f3 hcfg p3 request (fun _ => .error e)
        t5 t6).ran = true ∧
      errorSpanShape (TracingHTTPAdapter.send {} f3 hcfg p3 request
        (fun _ => .error e) t5 t6).spans e) := by
  refine ⟨?_, ?_, ?_⟩
  · unfold TracingCursorWrapper.execute
    simp only [hdb, not_true, Bool.not_eq_true, if_false]
    rw [if_neg (by decide : ¬ (false = true))]
    refine ⟨rfl, rfl, ?_⟩
    intro sp hsp
    rw [List.mem_singleton] at hsp
    subst hsp
    have h0 := (db_create_span_spec f1 dcfg dbs p1 sql).2.2.1
    exact ⟨by simp +decide, by simp, by simp [h0]⟩
  · unfold TracingRedisConnection.execute_command
    simp only [hrd, not_true, Bool.not_eq_true, if_false]
    rw [if_neg (by decide : ¬ (false = true))]
    refine ⟨rfl, rfl, ?_⟩
    intro sp hsp
    rw [List.mem_singleton] at hsp
    subst hsp
    have h0 := (redis_create_span_start f2 rcfg conn p2 cmd rest).1
    exact ⟨by simp +decide, by simp, by simp [h0]⟩
  · unfold TracingHTTPAdapter.send
    simp only [hht, not_true, Bool.not_eq_true, if_false]
    rw [if_neg (by decide : ¬ (false = true))]
    refine ⟨rfl, rfl, rfl, ?_⟩
    intro sp hsp
    rw [List.mem_singleton] at hsp
    subst hsp
    have h0 := (http_create_span_start f3 p3 request).1
    exact ⟨by simp +decide, by simp, by simp [h0]⟩

/-- C2 witness: the amended statement at a concrete traced query, redis
GET and HTTP GET whose underlying operations raise a ValueError. -/
theorem C2_error_tag_reraise_finish_witness :
    TracingCursorWrapper.should_trace_query { enabled := true }
      "SELECT 2 FROM t" = true ∧
    TracingRedisConnection.should_trace_command {} "GET" = true ∧
    (((TracingCursorWrapper.execute {} 1 { enabled := true } {} none
        "SELECT 2 FROM t" (Except.error ⟨"ValueError", "boom"⟩ :
          Except PyErr Nat) 0 3 none).result = .error ⟨"ValueError", "boom"⟩ ∧
      errorSpanShape (TracingCursorWrapper.execute {} 1 { enabled := true } {}
        none "SELECT 2 FROM t" (Except.error ⟨"ValueError", "boom"⟩ :
          Except PyErr Nat) 0 3 none).spans ⟨"ValueError", "boom"⟩) ∧
    ((TracingRedisConnection.execute_command {} 2 {} {} none ["GET", "k"]
        (.error ⟨"ValueError", "boom"⟩) 0 3).result
        = .error ⟨"ValueError", "boom"⟩ ∧
      errorSpanShape (TracingRedisConnection.execute_command {} 2 {} {} none
        ["GET", "k"] (.error ⟨"ValueError", "boom"⟩) 0 3).spans
        ⟨"ValueError", "boom"⟩) ∧
    ((TracingHTTPAdapter.send {} 3 {} none
        { method := "GET", url := "http://x/y", path := some "/y" }
        (fun _ => .error ⟨"ValueError", "boom"⟩) 0 3).result
        = .error ⟨"ValueError", "boom"⟩ ∧
      (TracingHTTPAdapter.send {} 3 {} none
        { method := "GET", url := "http://x/y", path := some "/y" }
        (fun _ => .error ⟨"ValueError", "boom"⟩) 0 3).ran = true ∧
      errorSpanShape (TracingHTTPAdapter.send {} 3 {} none
        { method := "GET", url := "http://x/y", path := some "/y" }
        (fun _ => .error ⟨"ValueError", "boom"⟩) 0 3).spans
        ⟨"ValueError", "boom"⟩)) :=
  ⟨by decide, by decide,
    C2_error_tag_reraise_finish ⟨"ValueError", "boom"⟩ 1 2 3 { enabled := true }
      {} none none none "SELECT 2 FROM t" 0 3 0 3 0 3 none {} {} "GET" ["k"]
      {} { method := "GET", url := "http://x/y", path := some "/y" }
      (by decide) (by decide) (by decide)⟩

/-- C3, counterexample to the claim as stated: a failure of the tracer's
start_span during a traced database execute happens OUTSIDE the try block
(the source calls _create_span before entering try), so the exception
escapes to the caller, the underlying query never executes and the result
is the tracer error instead of the query result. -/
theorem C3_span_creation_failure_counterexample :
    (TracingCursorWrapper.execute { start_span_raises := true } 5
      { enabled := true } {} none "SELECT 2 FROM t" (Except.ok (7 : Nat))
      0 3 none).ran = false ∧
    (TracingCursorWrapper.execute { start_span_raises := true } 5
      { enabled := true } {} none "SELECT 2 FROM t" (Except.ok (7 : Nat))
      0 3 none).result = .error tracingErr := by
  decide

/-- C3 (amended): a failure inside carrier injection or extraction is
caught by the adapters and never prevents the underlying call from
executing nor alters its arguments, return value or raised error (HTTP
header injection, celery header injection, rocketmq property extraction);
however a tracer failure during span creation, which the database adapter
runs before its protected try block, propagates and prevents the
underlying call. -/
theorem C3_inject_extract_failures_harmless (f1 f2 f3 f4 : Nat)
    (hcfg : HttpConfig) (p1 : Option SpanCtx) (request : HttpRequest)
    (underlying : HttpRequest → Except PyErr HttpResponse) (t1 t2 : Int)
    (ccfg : CeleryConfig) (S : SpanCtx) (task_name : String)
    (task_id : Option String) (headers0 : Carrier)
    (u2 : Carrier → Except PyErr Nat) (mcfg : MqConfig) (msg : MqMsg)
    (msg_id : Option String) (u3 : Except PyErr Nat) (t3 t4 : Int)
    (dcfg : DbConfig) (dbs : DbSettings) (sql : String)
    (u4 : Except PyErr Nat) (t5 t6 : Int) (rowcount : Option Int)
    (hht : hcfg.enabled = true)
    (hcl : CeleryInstrumentation.should_trace_task ccfg task_name = true)
    (hmq : RocketMQInstrumentation.should_trace_topic mcfg msg.topic = true)
    (hdb : TracingCursorWrapper.should_trace_query dcfg sql = true) :
    ((TracingHTTPAdapter.send { inject_raises := true } f1 hcfg p1 request
        underlying t1 t2).ran = true ∧
      (TracingHTTPAdapter.send { inject_raises := true } f1 hcfg p1 request
        underlying t1 t2).sentRequest = some request ∧
      (TracingHTTPAdapter.send { inject_raises := true } f1 hcfg p1 request
        underlying t1 t2).result = underlying request) ∧
    ((CeleryInstrumentation.inject_trace_context { inject_raises := true } f2
        ccfg (some S) task_name task_id headers0 u2).ran = true ∧
      (CeleryInstrumentation.inject_trace_context { inject_raises := true } f2
        ccfg (some S) task_name task_id headers0 u2).headers = headers0 ∧
      (CeleryInstrumentation.inject_trace_context { inject_raises := true } f2
        ccfg (some S) task_name task_id headers0 u2).result = u2 headers0) ∧
    ((RocketMQInstrumentation.trace_consume_message f3 mcfg true msg msg_id
        none none u3 t3 t4).ran = true ∧
      (RocketMQInstrumentation.trace_consume_message f3 mcfg true msg msg_id
        none none u3 t3 t4).result = u3) ∧
    (TracingCursorWrapper.execute { start_span_raises := true } f4 dcfg dbs
      (some S) sql u4 t5 t6 rowcount).ran = false := by
  refine ⟨?_, ?_, ?_, ?_⟩
  · have hreq : TracingHTTPAdapter.inject_headers { inject_raises := true }
        hcfg request (TracingHTTPAdapter.create_span f1 p1 request).ctx
        = request := by
      unfold TracingHTTPAdapter.inject_headers
      simp
    unfold TracingHTTPAdapter.send
    simp only [hht, not_true, Bool.not_eq_true, if_false]
    rw [if_neg (by decide : ¬ (false = true))]
    simp only [hreq]
    rcases hu : underlying request with e | r <;> simp [hu]
  · unfold CeleryInstrumentation.inject_trace_context
    simp only [hcl, not_true, Bool.not_eq_true, if_false]
    rw [if_neg (by decide : ¬ (false = true))]
    simp
  · unfold RocketMQInstrumentation.trace_consume_message
    simp only [hmq, not_true, Bool.not_eq_true, if_false]
    rcases u3 with e | r <;> simp
  · unfold TracingCursorWrapper.execute
    simp only [hdb, not_true, Bool.not_eq_true, if_false]
    simp

/-- C3 witness: the amended statement at concrete inputs — an enabled HTTP
request, a traced task dispatch, a traced consume and a traced query, with
the failing tracer operations as flagged. -/
theorem C3_inject_extract_failures_harmless_witness :
    ((TracingHTTPAdapter.send { inject_raises := true } 1 {} none
        { method := "GET", url := "http://x/y", path := some "/y" }
        (fun _ => .ok ⟨200, "ok"⟩) 0 3).ran = true ∧
      (TracingHTTPAdapter.send { inject_raises := true } 1 {} none
        { method := "GET", url := "http://x/y", path := some "/y" }
        (fun _ => .ok ⟨200, "ok"⟩) 0 3).sentRequest
        = some { method := "GET", url := "http://x/y", path := some "/y" } ∧
      (TracingHTTPAdapter.send { inject_raises := true } 1 {} none
        { method := "GET", url := "http://x/y", path := some "/y" }
        (fun _ => .ok ⟨200, "ok"⟩) 0 3).result
        = (fun _ => .ok (⟨200, "ok"⟩ : HttpResponse))
          ({ method := "GET", url := "http://x/y", path := some "/y" } :
            HttpRequest)) ∧
    ((CeleryInstrumentation.inject_trace_context { inject_raises := true } 2
        {} (some ⟨9, 4, 0, 1⟩) "mytask" none []
        (fun _ => Except.ok (5 : Nat))).ran = true ∧
      (CeleryInstrumentation.inject_trace_context { inject_raises := true } 2
        {} (some ⟨9, 4, 0, 1⟩) "mytask" none []
        (fun _ => Except.ok (5 : Nat))).headers = [] ∧
      (CeleryInstrumentation.inject_trace_context { inject_raises := true } 2
        {} (some ⟨9, 4, 0, 1⟩) "mytask" none []
        (fun _ => Except.ok (5 : Nat))).result
        = (fun _ => Except.ok (5 : Nat)) ([] : Carrier)) ∧
    ((RocketMQInstrumentation.trace_consume_message 3 {} true
        { topic := "orders" } none none none (Except.ok (5 : Nat))
        0 3).ran = true ∧
      (RocketMQInstrumentation.trace_consume_message 3 {} true
        { topic := "orders" } none none none (Except.ok (5 : Nat))
        0 3).result = Except.ok 5) ∧
    (TracingCursorWrapper.execute { start_span_raises := true } 4
      { enabled := true } {} (some ⟨9, 4, 0, 1⟩) "SELECT 2 FROM t"
      (Except.ok (7 : Nat)) 0 3 none).ran = false :=
  C3_inject_extract_failures_harmless 1 2 3 4 {} none
    { method := "GET", url := "http://x/y", path := some "/y" }
    (fun _ => .ok ⟨200, "ok"⟩) 0 3 {} ⟨9, 4, 0, 1⟩ "mytask" none []
    (fun _ => Except.ok 5) {} { topic := "orders" } none (Except.ok 5) 0 3
    { enabled := true } {} "SELECT 2 FROM t" (Except.ok 7) 0 3 none
    (by decide) (by decide) (by decide) (by decide)

/-- C4: for every component whose configuration marks it disabled, no span
is created for any call through that component's adapter (database, redis,
HTTP), and the underlying call receives the same arguments and returns the
same result as an uninstrumented direct call. -/
theorem C4_disabled_components_untraced (f1 f2 f3 : Nat) (dcfg : DbConfig)
    (dbs : DbSettings) (p1 p2 p3 : Option SpanCtx) (sql : String)
    (u1 : Except PyErr Nat) (t1 t2 t3 t4 t5 t6 : Int) (rowcount : Option Int)
    (rcfg : RedisConfig) (conn : RedisConnInfo) (args : List String)
    (u2 : Except PyErr RedisVal) (hcfg : HttpConfig) (request : HttpRequest)
    (u3 : HttpRequest → Except PyErr HttpResponse)
    (hdb : dcfg.enabled = false) (hrd : rcfg.enabled = false)
    (hht : hcfg.enabled = false) :
    ((TracingCursorWrapper.execute {} f1 dcfg dbs p1 sql u1 t1 t2
        rowcount).spans = [] ∧
      (TracingCursorWrapper.execute {} f1 dcfg dbs p1 sql u1 t1 t2
        rowcount).result = u1 ∧
      (TracingCursorWrapper.execute {} f1 dcfg dbs p1 sql u1 t1 t2
        rowcount).ran = true) ∧
    ((TracingRedisConnection.execute_command {} f2 rcfg conn p2 args u2
        t3 t4).spans = [] ∧
      (TracingRedisConnection.execute_command {} f2 rcfg conn p2 args u2
        t3 t4).result = u2 ∧
      (TracingRedisConnection.execute_command {} f2 rcfg conn p2 args u2
        t3 t4).ran = true) ∧
    ((TracingHTTPAdapter.send {} f3 hcfg p3 request u3 t5 t6).spans = [] ∧
      (TracingHTTPAdapter.send {} f3 hcfg p3 request u3 t5 t6).result
        = u3 request ∧
      (TracingHTTPAdapter.send {} f3 hcfg p3 request u3 t5 t6).sentRequest
        = some request ∧
      (TracingHTTPAdapter.send {} f3 hcfg p3 request u3 t5 t6).ran = true) := by
  refine ⟨?_, ?_, ?_⟩
  · have h : TracingCursorWrapper.should_trace_query dcfg sql = false := by
      simp [TracingCursorWrapper.should_trace_query, hdb]
    simp [TracingCursorWrapper.execute, h]
  · rcases args with _ | ⟨cmd, rest⟩
    · simp [TracingRedisConnection.execute_command]
    · have h : TracingRedisConnection.should_trace_command rcfg cmd = false := by
        simp [TracingRedisConnection.should_trace_command, hrd]
      simp [TracingRedisConnection.execute_command, h]
  · simp [TracingHTTPAdapter.send, hht]

/-- C4 witness: the statement at concrete disabled configurations with a
query, a redis GET and an HTTP GET. -/
theorem C4_disabled_components_untraced_witness :
    ((TracingCursorWrapper.execute {} 1 { enabled := false } {} none
        "SELECT 2 FROM t" (Except.ok (7 : Nat)) 0 3 none).spans = [] ∧
      (TracingCursorWrapper.execute {} 1 { enabled := false } {} none
        "SELECT 2 FROM t" (Except.ok (7 : Nat)) 0 3 none).result = .ok 7 ∧
      (TracingCursorWrapper.execute {} 1 { enabled := false } {} none
        "SELECT 2 FROM t" (Except.ok (7 : Nat)) 0 3 none).ran = true) ∧
    ((TracingRedisConnection.execute_command {} 2 { enabled := false } {} none
        ["GET", "k"] (.ok .none) 0 3).spans = [] ∧
      (TracingRedisConnection.execute_command {} 2 { enabled := false } {} none
        ["GET", "k"] (.ok .none) 0 3).result = .ok .none ∧
      (TracingRedisConnection.execute_command {} 2 { enabled := false } {} none
        ["GET", "k"] (.ok .none) 0 3).ran = true) ∧
    ((TracingHTTPAdapter.send {} 3 { enabled := false } none
        { method := "GET", url := "http://x/y", path := some "/y" }
        (fun _ => .ok ⟨200, "ok"⟩) 0 3).spans = [] ∧
      (TracingHTTPAdapter.send {} 3 { enabled := false } none
        { method := "GET", url := "http://x/y", path := some "/y" }
        (fun _ => .ok ⟨200, "ok"⟩) 0 3).result
        = (fun _ => .ok (⟨200, "ok"⟩ : HttpResponse))
          ({ method := "GET", url := "http://x/y", path := some "/y" } :
            HttpRequest) ∧
      (TracingHTTPAdapter.send {} 3 { enabled := false } none
        { method := "GET", url := "http://x/y", path := some "/y" }
        (fun _ => .ok ⟨200, "ok"⟩) 0 3).sentRequest
        = some { method := "GET", url := "http://x/y", path := some "/y" } ∧
      (TracingHTTPAdapter.send {} 3 { enabled := false } none
        { method := "GET", url := "http://x/y", path := some "/y" }
        (fun _ => .ok ⟨200, "ok"⟩) 0 3).ran = true) :=
  C4_disabled_components_untraced 1 2 3 { enabled := false } {} none none none
    "SELECT 2 FROM t" (.ok 7) 0 3 0 3 0 3 none { enabled := false } {}
    ["GET", "k"] (.ok .none) { enabled := false }
    { method := "GET", url := "http://x/y", path := some "/y" }
    (fun _ => .ok ⟨200, "ok"⟩) (by decide) (by decide) (by decide)

/-- C5: for every name listed in a component's ignore list, no span is
created for a call with that name: a RocketMQ send to a topic in
ignore_topics creates zero spans, leaves the message (and its properties)
unchanged and returns the send result unchanged; a redis command in
ignore_commands (case-insensitively) and a celery task in ignore_tasks are
likewise delegated untouched. -/
theorem C5_ignore_lists_untraced (f1 f2 f3 : Nat) (mcfg : MqConfig)
    (pmq : Option SpanCtx) (msg : MqMsg) (operation : MqOperation)
    (u1 : MqMsg → Except PyErr MqSendResult) (t1 t2 t3 t4 : Int)
    (rcfg : RedisConfig) (conn : RedisConnInfo) (p2 : Option SpanCtx)
    (cmd : String) (rest : List String) (u2 : Except PyErr RedisVal)
    (ccfg : CeleryConfig) (current : Option SpanCtx) (task_name : String)
    (task_id : Option String) (headers0 : Carrier)
    (u3 : Carrier → Except PyErr Nat)
    (hmq : mcfg.ignore_topics.contains msg.topic = true)
    (hrd : (rcfg.ignore_commands.map upperChars).contains (upperChars cmd)
      = true)
    (hcl : ccfg.ignore_tasks.contains task_name = true) :
    ((RocketMQInstrumentation.trace_send_message {} f1 mcfg pmq msg operation
        u1 t1 t2).spans = [] ∧
      (RocketMQInstrumentation.trace_send_message {} f1 mcfg pmq msg operation
        u1 t1 t2).sentMsg = msg ∧
      (RocketMQInstrumentation.trace_send_message {} f1 mcfg pmq msg operation
        u1 t1 t2).result = u1 msg ∧
      (RocketMQInstrumentation.trace_send_message {} f1 mcfg pmq msg operation
        u1 t1 t2).ran = true) ∧
    ((TracingRedisConnection.execute_command {} f2 rcfg conn p2 (cmd :: rest)
        u2 t3 t4).spans = [] ∧
      (TracingRedisConnection.execute_command {} f2 rcfg conn p2 (cmd :: rest)
        u2 t3 t4).result = u2) ∧
    ((CeleryInstrumentation.inject_trace_context {} f3 ccfg current task_name
        task_id headers0 u3).spans = [] ∧
      (CeleryInstrumentation.inject_trace_context {} f3 ccfg current task_name
        task_id headers0 u3).headers = headers0 ∧
      (CeleryInstrumentation.inject_trace_context {} f3 ccfg current task_name
        task_id headers0 u3).result = u3 headers0) := by
  refine ⟨?_, ?_, ?_⟩
  · have h : RocketMQInstrumentation.should_trace_topic mcfg msg.topic
        = false := by
      unfold RocketMQInstrumentation.should_trace_topic
      rw [hmq]
      rfl
    simp [RocketMQInstrumentation.trace_send_message, h]
  · have h : TracingRedisConnection.should_trace_command rcfg cmd = false := by
      unfold TracingRedisConnection.should_trace_command
      rw [hrd]
      simp
    simp [TracingRedisConnection.execute_command, h]
  · have h : CeleryInstrumentation.should_trace_task ccfg task_name
        = false := by
      unfold CeleryInstrumentation.should_trace_task
      rw [hcl]
      rfl
    simp [CeleryInstrumentation.inject_trace_context, h]

/-- C5 witness: the statement at a publish to topic "orders" with
rocketmq.ignore_topics = ["orders"] (its properties and send result
unchanged), a redis "GET" with ignore_commands = ["get"], and a celery
task "mytask" with ignore_tasks = ["mytask"]. -/
theorem C5_ignore_lists_untraced_witness :
    ((RocketMQInstrumentation.trace_send_message {} 1
        { ignore_topics := ["orders"] } none
        { topic := "orders", properties := some [("k", "v")] } .send_sync
        (fun _ => .ok ⟨0, some "mid"⟩) 0 3).spans = [] ∧
      (RocketMQInstrumentation.trace_send_message {} 1
        { ignore_topics := ["orders"] } none
        { topic := "orders", properties := some [("k", "v")] } .send_sync
        (fun _ => .ok ⟨0, some "mid"⟩) 0 3).sentMsg
        = { topic := "orders", properties := some [("k", "v")] } ∧
      (RocketMQInstrumentation.trace_send_message {} 1
        { ignore_topics := ["orders"] } none
        { topic := "orders", properties := some [("k", "v")] } .send_sync
        (fun _ => .ok ⟨0, some "mid"⟩) 0 3).result
        = (fun _ => Except.ok (⟨0, some "mid"⟩ : MqSendResult))
          ({ topic := "orders", properties := some [("k", "v")] } : MqMsg) ∧
      (RocketMQInstrumentation.trace_send_message {} 1
        { ignore_topics := ["orders"] } none
        { topic := "orders", properties := some [("k", "v")] } .send_sync
        (fun _ => .ok ⟨0, some "mid"⟩) 0 3).ran = true) ∧
    ((TracingRedisConnection.execute_command {} 2
        { ignore_commands := ["get"] } {} none ["GET", "k"] (.ok .none)
        0 3).spans = [] ∧
      (TracingRedisConnection.execute_command {} 2
        { ignore_commands := ["get"] } {} none ["GET", "k"] (.ok .none)
        0 3).result = .ok .none) ∧
    ((CeleryInstrumentation.inject_trace_context {} 3
        { ignore_tasks := ["mytask"] } (some ⟨9, 4, 0, 1⟩) "mytask" none []
        (fun _ => Except.ok (5 : Nat))).spans = [] ∧
      (CeleryInstrumentation.inject_trace_context {} 3
        { ignore_tasks := ["mytask"] } (some ⟨9, 4, 0, 1⟩) "mytask" none []
        (fun _ => Except.ok (5 : Nat))).headers = [] ∧
      (CeleryInstrumentation.inject_trace_context {} 3
        { ignore_tasks := ["mytask"] } (some ⟨9, 4, 0, 1⟩) "mytask" none []
        (fun _ => Except.ok (5 : Nat))).result
        = (fun _ => Except.ok (5 : Nat)) ([] : Carrier)) :=
  C5_ignore_lists_untraced 1 2 3 { ignore_topics := ["orders"] } none
    { topic := "orders", properties := some [("k", "v")] } .send_sync
    (fun _ => .ok ⟨0, some "mid"⟩) 0 3 0 3 { ignore_commands := ["get"] } {}
    none "GET" ["k"] (.ok .none) { ignore_tasks := ["mytask"] }
    (some ⟨9, 4, 0, 1⟩) "mytask" none [] (fun _ => Except.ok 5)
    (by decide) (by decide) (by decide)

/-- C6: the claim states the intended behaviour (error tag only on broker
failure, never on status == 0); the code inverts the condition.  Evaluating
the completion callback installed by traced_send_async: on a SUCCESSFUL
broker result (status == 0) the span is tagged send_status="failed" and
error=true, while on a FAILING result (status == 5) the span receives no
status or error tag at all; the span is finished once in both cases. -/
theorem C6_async_callback_inverted :
    ((RocketMQInstrumentation.traced_callback
        (some (startSpan 3 "SEND orders" none)) 0).1.map
        (fun sp => sp.tagVal ERROR) = some (some (.b true)) ∧
      (RocketMQInstrumentation.traced_callback
        (some (startSpan 3 "SEND orders" none)) 0).1.map
        (fun sp => sp.tagVal "rocketmq.send_status") = some (some (.s "failed")) ∧
      (RocketMQInstrumentation.traced_callback
        (some (startSpan 3 "SEND orders" none)) 0).1.map
        (fun sp => sp.finishCount) = some 1) ∧
    ((RocketMQInstrumentation.traced_callback
        (some (startSpan 3 "SEND orders" none)) 5).1.map
        (fun sp => sp.tagVal ERROR) = some none ∧
      (RocketMQInstrumentation.traced_callback
        (some (startSpan 3 "SEND orders" none)) 5).1.map
        (fun sp => sp.tagVal "rocketmq.send_status") = some none ∧
      (RocketMQInstrumentation.traced_callback
        (some (startSpan 3 "SEND orders" none)) 5).1.map
        (fun sp => sp.finishCount) = some 1) := by
  decide

/-- C7, counterexample to the claim as stated: a traced task dispatch with
NO active span creates no span at all — _inject_trace_context only builds
a publish span inside "if current_span:", and otherwise calls the original
apply_async directly; no new trace root is started. -/
theorem C7_no_root_span_counterexample :
    CeleryInstrumentation.should_trace_task {} "mytask" = true ∧
    (CeleryInstrumentation.inject_trace_context {} 7 {} none "mytask" none []
      (fun _ => Except.ok (5 : Nat))).spans = [] := by
  decide

/-- C7 (amended): for every task dispatch whose task name passes the
should-trace decision, a span named "PUBLISH <task name>" is created as a
child of the current active span when one exists; when no span is
currently active, NO span is created and the dispatch runs untraced (the
adapter never starts a new trace root). -/
theorem C7_publish_span_only_under_parent (f1 f2 : Nat) (ccfg : CeleryConfig)
    (S : SpanCtx) (task_name : String) (task_id : Option String)
    (headers0 : Carrier) (u : Carrier → Except PyErr Nat)
    (h : CeleryInstrumentation.should_trace_task ccfg task_name = true) :
    ((CeleryInstrumentation.inject_trace_context {} f1 ccfg (some S) task_name
        task_id headers0 u).spans.length = 1 ∧
      ∀ sp ∈ (CeleryInstrumentation.inject_trace_context {} f1 ccfg (some S)
        task_name task_id headers0 u).spans,
        sp.name = "PUBLISH " ++ task_name ∧ sp.parentCtx = some S ∧
        sp.finishCount = 1) ∧
    ((CeleryInstrumentation.inject_trace_context {} f2 ccfg none task_name
        task_id headers0 u).spans = [] ∧
      (CeleryInstrumentation.inject_trace_context {} f2 ccfg none task_name
        task_id headers0 u).result = u headers0) := by
  unfold CeleryInstrumentation.inject_trace_context
  simp only [h, not_true, Bool.not_eq_true, Bool.false_eq_true, if_false]
  refine ⟨⟨rfl, ?_⟩, by simp⟩
  intro sp hsp
  rw [List.mem_singleton] at hsp
  subst hsp
  simp

/-- C7 witness: the amended statement for the traced task "mytask" with
parent span context (9, 4, 0, 1) and with no active span. -/
theorem C7_publish_span_only_under_parent_witness :
    CeleryInstrumentation.should_trace_task {} "mytask" = true ∧
    (((CeleryInstrumentation.inject_trace_context {} 7 {} (some ⟨9, 4, 0, 1⟩)
        "mytask" none [] (fun _ => Except.ok (5 : Nat))).spans.length = 1 ∧
      ∀ sp ∈ (CeleryInstrumentation.inject_trace_context {} 7 {}
        (some ⟨9, 4, 0, 1⟩) "mytask" none []
        (fun _ => Except.ok (5 : Nat))).spans,
        sp.name = "PUBLISH " ++ "mytask" ∧ sp.parentCtx = some ⟨9, 4, 0, 1⟩ ∧
        sp.finishCount = 1) ∧
    ((CeleryInstrumentation.inject_trace_context {} 8 {} none "mytask" none []
        (fun _ => Except.ok (5 : Nat))).spans = [] ∧
      (CeleryInstrumentation.inject_trace_context {} 8 {} none "mytask" none []
        (fun _ => Except.ok (5 : Nat))).result
        = (fun _ => Except.ok (5 : Nat)) ([] : Carrier))) :=
  ⟨by decide,
    C7_publish_span_only_under_parent 7 8 {} ⟨9, 4, 0, 1⟩ "mytask" none []
      (fun _ => Except.ok 5) (by decide)⟩

/-- C8: extracting the carrier produced by injecting a span context into
an empty carrier recovers that context (so in particular its trace id);
consequently, composing a traced task dispatch (headers injected by
_inject_trace_context) with the execution-side _task_prerun_handler
reading those headers yields an execution span whose parent context is
exactly the dispatch span's context — the parent trace id equals the
dispatch span's trace id, which is the trace id of the active span at
dispatch. -/
theorem C8_carrier_round_trip (f1 f2 : Nat) (ccfg : CeleryConfig) (S : SpanCtx)
    (task_name task_id2 hostname : String) (task_id : Option String)
    (u : Carrier → Except PyErr Nat) (a k : Nat)
    (h : CeleryInstrumentation.should_trace_task ccfg task_name = true) :
    (∀ ctx : SpanCtx, extract (inject ctx []) = some ctx) ∧
    (∃ pub ex,
      (CeleryInstrumentation.inject_trace_context {} f1 ccfg (some S)
        task_name task_id [] u).spans = [pub] ∧
      (CeleryInstrumentation.task_prerun_handler f2 ccfg false task_name
        task_id2 hostname
        (CeleryInstrumentation.inject_trace_context {} f1 ccfg (some S)
          task_name task_id [] u).headers a k).span = some ex ∧
      ex.parentCtx = some pub.ctx ∧
      ex.parentCtx.map SpanCtx.trace_id = some pub.ctx.trace_id ∧
      pub.ctx.trace_id = S.trace_id) := by
  refine ⟨fun ctx => extract_inject ctx [], ?_⟩
  unfold CeleryInstrumentation.inject_trace_context
    CeleryInstrumentation.task_prerun_handler
  simp only [h, not_true, Bool.not_eq_true, Bool.false_eq_true, if_false,
    dictUpdate, List.append_eq, List.nil_append, dictTruthy_inject,
    extract_inject, if_true]
  refine ⟨_, _, rfl, rfl, ?_, ?_, ?_⟩ <;>
    first
      | (split_ifs <;> simp [startSpan])
      | simp [startSpan]

/-- C8 witness: the statement at the concrete traced task "mytask",
dispatched under the active span context (9, 4, 0, 1). -/
theorem C8_carrier_round_trip_witness :
    CeleryInstrumentation.should_trace_task {} "mytask" = true ∧
    ((∀ ctx : SpanCtx, extract (inject ctx []) = some ctx) ∧
    (∃ pub ex,
      (CeleryInstrumentation.inject_trace_context {} 7 {} (some ⟨9, 4, 0, 1⟩)
        "mytask" none [] (fun _ => Except.ok (5 : Nat))).spans = [pub] ∧
      (CeleryInstrumentation.task_prerun_handler 8 {} false "mytask"
        "tid2" "worker1"
        (CeleryInstrumentation.inject_trace_context {} 7 {}
          (some ⟨9, 4, 0, 1⟩) "mytask" none []
          (fun _ => Except.ok (5 : Nat))).headers 0 0).span = some ex ∧
      ex.parentCtx = some pub.ctx ∧
      ex.parentCtx.map SpanCtx.trace_id = some pub.ctx.trace_id ∧
      pub.ctx.trace_id = 9)) :=
  ⟨by decide,
    C8_carrier_round_trip 7 8 {} ⟨9, 4, 0, 1⟩ "mytask" "tid2" "worker1" none
      (fun _ => Except.ok 5) 0 0 (by decide)⟩

/-- C9: over all execution paths of every traced call — success, raised
exception, and asynchronous completion — every span an adapter creates is
finished exactly once, and the Active-Span Context push count equals the
pop count: the database execute, redis execute_command and HTTP send on
both outcomes; the rocketmq synchronous and oneway sends; the asynchronous
send composed with its completion callback; the rocketmq consume (which
pushes and pops exactly once around the user callback); and the celery
prerun/postrun task flow (which pushes in prerun and pops in postrun). -/
theorem C9_start_finish_balance :
    (∀ (fx : TracerFx) (f : Nat) (cfg : DbConfig) (dbs : DbSettings)
      (p : Option SpanCtx) (sql : String) (u : Except PyErr Nat) (t1 t2 : Int)
      (rc : Option Int),
      (TracingCursorWrapper.execute fx f cfg dbs p sql u t1 t2 rc).spans.all
        (fun sp => sp.finishCount == 1) = true) ∧
    (∀ (fx : TracerFx) (f : Nat) (cfg : RedisConfig) (conn : RedisConnInfo)
      (p : Option SpanCtx) (args : List String) (u : Except PyErr RedisVal)
      (t1 t2 : Int),
      (TracingRedisConnection.execute_command fx f cfg conn p args u t1
        t2).spans.all (fun sp => sp.finishCount == 1) = true) ∧
    (∀ (fx : TracerFx) (f : Nat) (cfg : HttpConfig) (p : Option SpanCtx)
      (request : HttpRequest) (u0 : Except PyErr HttpResponse) (t1 t2 : Int),
      (TracingHTTPAdapter.send fx f cfg p request (fun _ => u0) t1 t2).spans.all
        (fun sp => sp.finishCount == 1) = true) ∧
    (∀ (fx : TracerFx) (f : Nat) (cfg : MqConfig) (p : Option SpanCtx)
      (msg : MqMsg) (u0 : Except PyErr MqSendResult) (t1 t2 : Int),
      (RocketMQInstrumentation.trace_send_message fx f cfg p msg .send_sync
        (fun _ => u0) t1 t2).spans.all (fun sp => sp.finishCount == 1)
        = true) ∧
    (∀ (fx : TracerFx) (f : Nat) (cfg : MqConfig) (p : Option SpanCtx)
      (msg : MqMsg) (u0 : Except PyErr MqSendResult) (t1 t2 : Int),
      (RocketMQInstrumentation.trace_send_message fx f cfg p msg .send_oneway
        (fun _ => u0) t1 t2).spans.all (fun sp => sp.finishCount == 1)
        = true) ∧
    (∀ (fx : TracerFx) (f : Nat) (cfg : MqConfig) (p : Option SpanCtx)
      (msg : MqMsg) (u0 : Except PyErr MqSendResult) (t1 t2 : Int)
      (status : Int),
      (RocketMQInstrumentation.send_async_flow fx f cfg p msg (fun _ => u0)
        t1 t2 status).all (fun sp => sp.finishCount == 1) = true) ∧
    (∀ (f : Nat) (cfg : MqConfig) (er : Bool) (msg : MqMsg)
      (msg_id : Option String) (qid bts : Option Int) (u : Except PyErr Nat)
      (t1 t2 : Int),
      (RocketMQInstrumentation.trace_consume_message f cfg er msg msg_id qid
        bts u t1 t2).spans.all (fun sp => sp.finishCount == 1) = true ∧
      (RocketMQInstrumentation.trace_consume_message f cfg er msg msg_id qid
        bts u t1 t2).pushes
        = (RocketMQInstrumentation.trace_consume_message f cfg er msg msg_id
          qid bts u t1 t2).pops) ∧
    (∀ (f : Nat) (cfg : CeleryConfig) (er : Bool)
      (task_name task_id hostname : String) (headers : Carrier) (a k : Nat)
      (st : Option Int) (now : Int) (state rty : Option String),
      (CeleryInstrumentation.task_flow f cfg er task_name task_id hostname
        headers a k st now state rty).1.all
        (fun sp => sp.finishCount == 1) = true ∧
      (CeleryInstrumentation.task_flow f cfg er task_name task_id hostname
        headers a k st now state rty).2.1
        = (CeleryInstrumentation.task_flow f cfg er task_name task_id hostname
          headers a k st now state rty).2.2) := by
  refine ⟨?_, ?_, ?_, ?_, ?_, ?_, ?_, ?_⟩
  · intro fx f cfg dbs p sql u t1 t2 rc
    have h0 := (db_create_span_spec f cfg dbs p sql).2.2.1
    unfold TracingCursorWrapper.execute
    by_cases hq : TracingCursorWrapper.should_trace_query cfg sql = true
    · by_cases hsr : fx.start_span_raises = true
      · simp [hq, hsr]
      · rcases u with e | r
        · simp [hq, hsr, h0]
        · rcases rc with _ | rcv <;> simp [hq, hsr, h0]
    · simp [hq]
  · intro fx f cfg conn p args u t1 t2
    rcases args with _ | ⟨cmd, rest⟩
    · rfl
    · have h0 := (redis_create_span_start f cfg conn p cmd rest).1
      unfold TracingRedisConnection.execute_command
      by_cases hc : TracingRedisConnection.should_trace_command cfg cmd = true
      · by_cases hsr : fx.start_span_raises = true
        · simp [hc, hsr]
        · rcases u with e | r
          · simp [hc, hsr, h0]
          · rcases r with _ | n | s | _ <;> simp [hc, hsr, h0]
      · simp [hc]
  · intro fx f cfg p request u0 t1 t2
    have h0 := (http_create_span_start f p request).1
    unfold TracingHTTPAdapter.send
    by_cases hen : cfg.enabled = true
    · by_cases hsr : fx.start_span_raises = true
      · simp [hen, hsr]
      · rcases u0 with e | r
        · simp [hen, hsr, h0]
        · simp [hen, hsr, h0]
    · simp [hen]
  · intro fx f cfg p msg u0 t1 t2
    obtain ⟨topic, mtags, keys, body, props⟩ := msg
    unfold RocketMQInstrumentation.trace_send_message
    by_cases hst : RocketMQInstrumentation.should_trace_topic cfg topic = true
    · by_cases hsr : fx.start_span_raises = true
      · simp [hst, hsr]
      · rcases u0 with e | ⟨st, mid⟩
        · cases mtags <;> cases keys <;> simp [hst, hsr]
        · rcases mid with _ | mid <;> cases mtags <;> cases keys <;>
            by_cases h0 : st = 0 <;> simp [hst, hsr, h0]
    · simp [hst]
  · intro fx f cfg p msg u0 t1 t2
    obtain ⟨topic, mtags, keys, body, props⟩ := msg
    unfold RocketMQInstrumentation.trace_send_message
    by_cases hst : RocketMQInstrumentation.should_trace_topic cfg topic = true
    · by_cases hsr : fx.start_span_raises = true
      · simp [hst, hsr]
      · rcases u0 with e | ⟨st, mid⟩ <;> cases mtags <;> cases keys <;>
          simp [hst, hsr]
    · simp [hst]
  · intro fx f cfg p msg u0 t1 t2 status
    obtain ⟨topic, mtags, keys, body, props⟩ := msg
    unfold RocketMQInstrumentation.send_async_flow
      RocketMQInstrumentation.trace_send_message
      RocketMQInstrumentation.traced_callback
    by_cases hst : RocketMQInstrumentation.should_trace_topic cfg topic = true
    · by_cases hsr : fx.start_span_raises = true
      · simp [hst, hsr]
      · rcases u0 with e | ⟨st, mid⟩ <;> cases mtags <;> cases keys <;>
          by_cases hq : status = 0 <;> simp [hst, hsr, hq]
    · rcases u0 with e | r <;> simp [hst]
  · intro f cfg er msg msg_id qid bts u t1 t2
    obtain ⟨topic, mtags, keys, body, props⟩ := msg
    unfold RocketMQInstrumentation.trace_consume_message
    by_cases hst : RocketMQInstrumentation.should_trace_topic cfg topic = true
    · rcases u with e | r <;> cases mtags <;> cases keys <;> cases msg_id <;>
        cases qid <;> cases bts <;> simp [hst]
    · simp [hst]
  · intro f cfg er task_name task_id hostname headers a k st now state rty
    unfold CeleryInstrumentation.task_flow
      CeleryInstrumentation.task_prerun_handler
      CeleryInstrumentation.task_postrun_handler
    by_cases hst : CeleryInstrumentation.should_trace_task cfg task_name = true
    · rcases st with _ | t0 <;> rcases rty with _ | ty <;>
        by_cases hta : cfg.trace_task_args = true <;>
        by_cases hr : cfg.trace_result = true <;>
        simp [hst, hta, hr, Option.all]
    · simp [hst, Option.all]

/-- C10: when the traced Redis connection's execute_command is invoked
with no positional arguments, it delegates directly to the underlying
connection's execute_command with the same arguments, creates no span,
and returns the underlying result unchanged. -/
theorem C10_redis_no_args_delegates (fx : TracerFx) (f : Nat)
    (cfg : RedisConfig) (conn : RedisConnInfo) (p : Option SpanCtx)
    (u : Except PyErr RedisVal) (t1 t2 : Int) :
    TracingRedisConnection.execute_command fx f cfg conn p [] u t1 t2
      = { result := u, spans := [], ran := true } := rfl

end Jaegertrace
